import Mathlib

/-!
Verification development for the Python-Code-Tester repository.

The analysis engine lives in `src/analysis.py` (class `AnalysisThread`) and
`src/ui.py` (class `AnalyzerApp`).  The embedding below translates the engine
into Lean:

* external effects (process spawning, `json.loads`, the `coverage.json` file,
  Python `set` iteration order, `shutil.which`) are supplied by an `Env`
  record of oracle functions;
* the mutable `is_running` flag, which is only ever flipped from `True` to
  `False` by `AnalysisThread.stop`, is modelled by `Env.cancelAt`: the k-th
  read of the flag returns `True` exactly when `k < cancelAt` (with
  `cancelAt = none` meaning the flag is never cleared);
* every Qt signal emission and every subprocess launch becomes an event in an
  ordered trace, so the UI-side slot reactions (`AnalyzerApp.process_*`,
  `AnalyzerApp.step_completed`) are folds over that trace.

`app_logger.info` calls are not modelled; the `app_logger.warning` calls of
the JSON-parse handlers are kept as `Ev.logWarn` events because the spec
talks about them.  Python float formatting (the `:.2f` in the coverage
recommendation) is abstracted to `toString` of an integer percentage; no
claim depends on those bytes.
-/

/-- The logical-step name constants of `ui.py` (the string values of the
`tools_to_steps` dict in `AnalyzerApp.run_analysis` and the arguments the
`process_*` slots pass to `AnalyzerApp.step_completed`). -/
inductive LogicalStep
  | linting
  | typeChecking
  | complexity
  | security
  | formatting
  | documentation
  | license
  | testing
  | coverage
  | dependencyAudit
  | codeDuplication
  | docGeneration
  | profiling
  deriving DecidableEq, Repr

/-- The `tools_to_steps` dict of `AnalyzerApp.run_analysis` (src/ui.py lines
584-601) as an association list of tool name to logical-step names. -/
def toolStepTable : List (String × List LogicalStep) :=
  [("Pylint", [LogicalStep.linting]),
   ("Flake8", [LogicalStep.linting]),
   ("Mypy", [LogicalStep.typeChecking]),
   ("Radon", [LogicalStep.complexity]),
   ("Bandit", [LogicalStep.security]),
   ("Black", [LogicalStep.formatting]),
   ("Autopep8", [LogicalStep.formatting]),
   ("Isort", [LogicalStep.formatting]),
   ("Pydocstyle", [LogicalStep.documentation]),
   ("Pytest", [LogicalStep.testing]),
   ("Coverage", [LogicalStep.coverage]),
   ("Pip-Licenses", [LogicalStep.license]),
   ("Pip-Audit", [LogicalStep.dependencyAudit]),
   ("Code Duplication", [LogicalStep.codeDuplication]),
   ("Profiling", [LogicalStep.profiling]),
   ("Documentation Generation", [LogicalStep.docGeneration])]

/-- Embeds `tools_to_steps.get(tool, [])` of `AnalyzerApp.run_analysis`
(src/ui.py lines 584-605): dict lookup with default `[]` for unknown names. -/
def tools_to_steps (tool : String) : List LogicalStep :=
  ((toolStepTable.find? (fun pr => pr.1 = tool)).map Prod.snd).getD []

/-- Embeds `self.steps` of `AnalyzerApp.run_analysis` (src/ui.py lines
603-606): the Python `set` of logical-step names of the selected tools,
represented as a duplicate-free list. -/
def stepsList (selected : List String) : List LogicalStep :=
  (selected.flatMap tools_to_steps).dedup

/-- Embeds `self.total_steps = len(self.steps)` (src/ui.py line 608). -/
def totalSteps (selected : List String) : Nat :=
  (stepsList selected).length

/-- Outcome of one `subprocess.run(..., capture_output=True, text=True,
check=True, timeout=300)` call, as distinguished by the exception handlers of
`AnalysisThread.run_command` (src/analysis.py lines 525-556). -/
inductive ProcOutcome
  | success (stdout stderr : String)
  | timeoutExpired
  | fileNotFound
  | calledError (stdout stderr : Option String)
  | otherError (msg : String)
  deriving DecidableEq, Repr

/-- The string `AnalysisThread.run_command` returns for each subprocess
outcome (src/analysis.py lines 529-556): `result.stdout` on exit 0 (the
captured stderr is dropped), the stripped stdout and stderr joined by a
newline on a non-zero exit, and the empty string on timeout, missing
executable, or any other launch fault.  `e.stdout.strip() if e.stdout else
empty-or-None stdout` agrees with `(·.getD "").trim` because `None` and the
empty string both strip to the empty string. -/
def runCommandResult (oc : ProcOutcome) : String :=
  match oc with
  | ProcOutcome.success out _ => out
  | ProcOutcome.timeoutExpired => ""
  | ProcOutcome.fileNotFound => ""
  | ProcOutcome.calledError o e => (o.getD "").trim ++ "\n" ++ (e.getD "").trim
  | ProcOutcome.otherError _ => ""

/-- One observable event of the engine: a `*_completed`/`documentation_generated`
signal emission (`done`), a `progress` signal emission (`prog`), an actual
subprocess spawn inside `run_command` (`launch`, carrying the flag-read index
that guarded it), an `app_logger.warning` of a JSON-parse handler (`logWarn`),
or the final `recommendations` emission (`recsOut`). -/
inductive Ev
  | done (step : LogicalStep) (payload : String)
  | prog (msg : String)
  | launch (cmd : List String) (tick : Nat)
  | logWarn (msg : String)
  | recsOut (text : String)
  deriving DecidableEq, Repr

/-- State threaded through the run: the number of `is_running` reads so far
and the number of subprocesses launched so far. -/
structure Ctr where
  tick : Nat
  launches : Nat
  deriving DecidableEq, Repr

/-- One issue object of the pylint `--output-format=json` output, restricted to
the fields the code reads (`type`, `message`, `line`, `path`). -/
structure PylintIssue where
  itype : String
  message : String
  line : Nat
  path : String
  deriving DecidableEq, Repr

/-- One package object of the pip-licenses JSON output, restricted to the
fields the code reads (`Name`, `Version`, `License`). -/
structure LicPkg where
  name : String
  version : String
  lic : String
  deriving DecidableEq, Repr

/-- One block object of the radon JSON output, restricted to the fields the
code reads (`name`, `complexity`, `lineno`). -/
structure RadonBlock where
  name : String
  complexity : Int
  lineno : Nat
  deriving DecidableEq, Repr

/-- One issue object of the bandit `results` list, restricted to the fields
the code reads; each field holds the value the corresponding `issue.get`
call yields, defaults applied and the line number rendered as the f-string
renders it. -/
structure BanditIssue where
  severity : String
  confidence : String
  text : String
  filename : String
  line : String
  code : String
  deriving DecidableEq, Repr

/-- One vulnerability object of the pip-audit JSON output, restricted to the
fields the code reads (dependency name and version, id, description),
defaults applied. -/
structure AuditVuln where
  depName : String
  version : String
  vulnId : String
  description : String
  deriving DecidableEq, Repr

/-- The decoded coverage JSON as read by `process_coverage_output`: the
`meta.coverage_percent` value and the per-file `percent_covered` values,
with the Python floats abstracted to integers. -/
structure CovData where
  pct : Int
  files : List (String × Int)
  deriving DecidableEq, Repr

/-- State of the `coverage.json` report file after the pytest invocation
(src/analysis.py lines 382-398): absent, present but not valid JSON, or
parsed with a `meta.coverage_percent` value and the `json.dumps` re-emission
of its contents. -/
inductive CovReport
  | absent
  | unparsable
  | parsed (pct : Int) (dump : String)
  deriving DecidableEq, Repr

/-- The settings bundle read by the engine (`settings.get` defaults:
`selected_tools` [], `enable_autofix` False, `mypy_ignore_missing_imports`
True, `bandit_confidence` "MEDIUM", `radon_threshold` 10,
`enable_metrics_tracking` True). -/
structure Settings where
  selected : List String
  enableAutofix : Bool
  mypyIgnoreMissing : Bool
  banditConfidence : String
  radonThreshold : Int
  enableMetricsTracking : Bool
  deriving DecidableEq, Repr

/-- The external world of one run: the target paths, `shutil.which`
availability, the cancellation schedule, per-launch subprocess outcomes, the
`json.loads` results for each payload shape, the coverage report
state, and the iteration order Python uses for a `set` of strings. -/
structure Env where
  projectPath : String
  testerDir : String
  avail : String → Bool
  cancelAt : Option Nat
  outcomes : Nat → ProcOutcome
  pylintDecode : String → Option (List PylintIssue)
  radonDecode : String → Option (List (String × List RadonBlock))
  banditDecode : String → Option (List BanditIssue)
  licenseDecode : String → Option (List LicPkg)
  auditDecode : String → Option (List AuditVuln)
  covReport : CovReport
  setIter : List String → List String

/-- Value of the monotone `is_running` flag at its k-th read. -/
def Env.aliveAt (env : Env) (k : Nat) : Bool :=
  match env.cancelAt with
  | none => true
  | some c => k < c

/-- Boolean substring test (Python `needle in hay`). -/
def substrB (needle hay : String) : Bool :=
  decide (needle.data <:+: hay.data)

/-- Result of one `AnalysisThread.run_command` call: the returned string, the
events it produced, and the updated counters. -/
structure CmdOut where
  out : String
  evs : List Ev
  ctr : Ctr
  deriving Repr

/-- Space-joined command text, as in the space-join of `command`. -/
def joinCmd (cmd : List String) : String :=
  String.intercalate " " cmd

/-- Embeds `AnalysisThread.run_command` (src/analysis.py lines 525-556): an
`is_running` read guards the spawn (`if not self.is_running: return ""`); on
spawn, the outcome is classified and the error paths additionally emit a
`progress` message. -/
def run_command (env : Env) (cmd : List String) (c : Ctr) : CmdOut :=
  let t := c.tick
  let c1 : Ctr := ⟨c.tick + 1, c.launches⟩
  if env.aliveAt t then
    let oc := env.outcomes c1.launches
    let c2 : Ctr := ⟨c1.tick, c1.launches + 1⟩
    match oc with
    | ProcOutcome.success out _ => ⟨out, [Ev.launch cmd t], c2⟩
    | ProcOutcome.timeoutExpired =>
        ⟨"", [Ev.launch cmd t,
              Ev.prog ("Command " ++ joinCmd cmd ++ " timed out.")], c2⟩
    | ProcOutcome.fileNotFound =>
        ⟨"", [Ev.launch cmd t,
              Ev.prog ("Command not found: " ++ joinCmd cmd ++
                ". Please ensure it is installed and in your PATH.")], c2⟩
    | ProcOutcome.calledError o e =>
        ⟨(o.getD "").trim ++ "\n" ++ (e.getD "").trim,
         [Ev.launch cmd t,
          Ev.prog ("Error running " ++ joinCmd cmd ++ ": " ++ (e.getD "").trim)], c2⟩
    | ProcOutcome.otherError m =>
        ⟨"", [Ev.launch cmd t,
              Ev.prog ("An error occurred while running " ++ joinCmd cmd ++ ": " ++ m)], c2⟩
  else ⟨"", [], c1⟩

/-- Embeds `AnalysisThread.generate_pylint_recommendations`
(src/analysis.py lines 157-167).  `decoded` is the `json.loads` result
(`none` = `JSONDecodeError`); `setIter` is the iteration order Python gives
the `set` of issue-type strings.  Returns the appended recommendation lines
and whether the parse warning was logged. -/
def generate_pylint_recommendations (decoded : Option (List PylintIssue))
    (setIter : List String → List String) : List String × Bool :=
  match decoded with
  | none => ([], true)
  | some issues =>
    if issues.isEmpty then (["Pylint: No issues found. Great job!"], false)
    else
      ((setIter (issues.map PylintIssue.itype).dedup).map
        (fun t => "Pylint: Address " ++ t ++ " issues for better code quality."),
       false)

/-- Embeds `AnalysisThread.generate_mypy_recommendations`
(src/analysis.py lines 191-195). -/
def generate_mypy_recommendations (output : String) : List String :=
  if substrB "Success: no issues found in" output then
    ["Mypy: No type issues found. Excellent!"]
  else
    ["Mypy: Consider adding type annotations to improve code reliability."]

/-- Embeds `AnalysisThread.generate_radon_recommendations`
(src/analysis.py lines 217-231); `decoded` is the per-module block list of
the JSON output; the inner break of the Python loop makes the flag an
existence check. -/
def generate_radon_recommendations
    (decoded : Option (List (String × List RadonBlock)))
    (threshold : Int) : List String × Bool :=
  match decoded with
  | none => ([], true)
  | some modules =>
    if modules.any (fun md => md.2.any (fun b => b.complexity > threshold)) then
      (["Radon: Simplify complex functions to reduce cognitive load."], false)
    else
      (["Radon: Code complexity is within acceptable limits."], false)

/-- Embeds `AnalysisThread.generate_bandit_recommendations`
(src/analysis.py lines 255-264); `decoded` is the results list, with default [], of
the JSON output, with entries kept opaque. -/
def generate_bandit_recommendations (decoded : Option (List BanditIssue)) :
    List String × Bool :=
  match decoded with
  | none => ([], true)
  | some issues =>
    if issues.isEmpty then
      (["Bandit: No security issues found. Good job!"], false)
    else
      (["Bandit: Address the identified security issues to secure your code."], false)

/-- Embeds `AnalysisThread.generate_black_recommendations`
(src/analysis.py lines 294-298). -/
def generate_black_recommendations (output : String) : List String :=
  if substrB "would reformat" output || substrB "1 file would be reformatted" output then
    ["Black: Consider formatting your code for better readability."]
  else
    ["Black: Code is properly formatted."]

/-- Embeds `AnalysisThread.generate_pydocstyle_recommendations`
(src/analysis.py lines 320-324). -/
def generate_pydocstyle_recommendations (output : String) : List String :=
  if output.trim = "" then
    ["Pydocstyle: Documentation complies with style guidelines."]
  else
    ["Pydocstyle: Improve docstrings to enhance code maintainability."]

/-- Embeds `AnalysisThread.generate_pip_licenses_recommendations`
(src/analysis.py lines 346-358). -/
def generate_pip_licenses_recommendations (decoded : Option (List LicPkg)) :
    List String × Bool :=
  match decoded with
  | none => ([], true)
  | some pkgs =>
    let nonCompliant :=
      (pkgs.filter (fun p =>
        decide (p.lic ∉ ["MIT", "BSD", "Apache 2.0", "GPLv3", "LGPL", "MPL"]))).map
        LicPkg.name
    if nonCompliant.isEmpty then
      (["Pip-Licenses: All dependencies have compliant licenses."], false)
    else
      (["Pip-Licenses: Review licenses of " ++ String.intercalate ", " nonCompliant ++
        " for compliance."], false)

/-- Embeds `AnalysisThread.generate_pytest_recommendations`
(src/analysis.py lines 400-404). -/
def generate_pytest_recommendations (output : String) : List String :=
  if substrB "no tests ran" output.toLower then
    ["Pytest: No tests found. Consider adding tests to improve code reliability."]
  else
    ["Pytest: Tests executed. Review test results for failures."]

/-- Embeds `AnalysisThread.generate_coverage_recommendations`
(src/analysis.py lines 406-411), with the Python float percentage and its
`:.2f` formatting abstracted to an integer and `toString`. -/
def generate_coverage_recommendations (pct : Int) : List String :=
  if pct < 80 then
    ["Coverage: Code coverage is " ++ toString pct ++ "%. Aim for at least 80%."]
  else
    ["Coverage: Good job! Code coverage is " ++ toString pct ++ "%."]

/-- Embeds `AnalysisThread.generate_pip_audit_recommendations`
(src/analysis.py lines 431-439). -/
def generate_pip_audit_recommendations (decoded : Option (List AuditVuln)) :
    List String × Bool :=
  match decoded with
  | none => ([], true)
  | some vulns =>
    if vulns.isEmpty then
      (["Pip-Audit: No vulnerabilities found in dependencies."], false)
    else
      (["Pip-Audit: Update dependencies to address vulnerabilities."], false)

/-- Embeds `AnalysisThread.generate_flake8_duplication_recommendations`
(src/analysis.py lines 491-495). -/
def generate_flake8_duplication_recommendations (output : String) : List String :=
  if output.trim = "" then
    ["Flake8: No code duplication issues found."]
  else
    ["Flake8: Consider refactoring duplicated code to improve maintainability."]

/-- Result of one tool method of `AnalysisThread`: the events it emitted, the
recommendation lines it appended to `self.recommendations_list`, and the
updated counters. -/
structure Out where
  evs : List Ev
  recs : List String
  ctr : Ctr

/-- Common shape of the `run_<tool>` methods of `AnalysisThread`: an
`is_running` read at entry (`if not self.is_running: return`), the
availability check, the leading `progress` emissions, one `run_command`, a
second `is_running` read (`if not self.is_running: return`), then the
tool-specific completion (`finish`). -/
def stdTool (env : Env) (execName : String) (missingEvs : List Ev)
    (startEvs : List Ev) (cmd : List String)
    (finish : String → Ctr → Out) (c : Ctr) : Out :=
  let alive := env.aliveAt c.tick
  let c1 : Ctr := ⟨c.tick + 1, c.launches⟩
  if alive then
    if env.avail execName then
      let r := run_command env cmd c1
      let alive2 := env.aliveAt r.ctr.tick
      let c2 : Ctr := ⟨r.ctr.tick + 1, r.ctr.launches⟩
      if alive2 then
        let f := finish r.out c2
        ⟨startEvs ++ r.evs ++ f.evs, f.recs, f.ctr⟩
      else ⟨startEvs ++ r.evs, [], c2⟩
    else ⟨missingEvs, [], c1⟩
  else ⟨[], [], c1⟩

/-- Embeds `AnalysisThread.run_pylint` (src/analysis.py lines 137-155). -/
def run_pylint (env : Env) (c : Ctr) : Out :=
  stdTool env "pylint"
    [Ev.prog "Error: pylint is not available. Please install it.",
     Ev.done LogicalStep.linting "pylint is not available."]
    [Ev.prog "Starting linting...", Ev.prog "Running pylint..."]
    ["pylint", env.projectPath, "--output-format=json"]
    (fun out c2 =>
      let g := generate_pylint_recommendations (env.pylintDecode out) env.setIter
      ⟨Ev.done LogicalStep.linting out ::
        (if g.2 then [Ev.logWarn "Failed to parse pylint output as JSON."] else []),
       g.1, c2⟩)
    c

/-- Embeds `AnalysisThread.run_mypy` (src/analysis.py lines 169-189). -/
def run_mypy (env : Env) (st : Settings) (c : Ctr) : Out :=
  stdTool env "mypy"
    [Ev.prog "Error: mypy is not available. Please install it.",
     Ev.done LogicalStep.typeChecking "mypy is not available."]
    [Ev.prog "Starting type checking with mypy...", Ev.prog "Running mypy..."]
    (["mypy", env.projectPath, "--pretty"] ++
      (if st.mypyIgnoreMissing then ["--ignore-missing-imports"] else []))
    (fun out c2 =>
      ⟨[Ev.done LogicalStep.typeChecking out], generate_mypy_recommendations out, c2⟩)
    c

/-- Embeds `AnalysisThread.run_radon` (src/analysis.py lines 197-215). -/
def run_radon (env : Env) (st : Settings) (c : Ctr) : Out :=
  stdTool env "radon"
    [Ev.prog "Error: radon is not available. Please install it.",
     Ev.done LogicalStep.complexity "radon is not available."]
    [Ev.prog "Analyzing code complexity with radon...", Ev.prog "Running radon..."]
    ["radon", "cc", ".", "-s", "-j"]
    (fun out c2 =>
      let g := generate_radon_recommendations (env.radonDecode out) st.radonThreshold
      ⟨Ev.done LogicalStep.complexity out ::
        (if g.2 then [Ev.logWarn "Failed to parse radon output as JSON."] else []),
       g.1, c2⟩)
    c

/-- Embeds `AnalysisThread.run_bandit` (src/analysis.py lines 233-253). -/
def run_bandit (env : Env) (st : Settings) (c : Ctr) : Out :=
  stdTool env "bandit"
    [Ev.prog "Error: bandit is not available. Please install it.",
     Ev.done LogicalStep.security "bandit is not available."]
    [Ev.prog "Starting security analysis with bandit...", Ev.prog "Running bandit..."]
    ["bandit", "-r", ".", "-f", "json", "--confidence-level", st.banditConfidence.toLower]
    (fun out c2 =>
      let g := generate_bandit_recommendations (env.banditDecode out)
      ⟨Ev.done LogicalStep.security out ::
        (if g.2 then [Ev.logWarn "Failed to parse bandit output as JSON."] else []),
       g.1, c2⟩)
    c

/-- Embeds `AnalysisThread.run_black` (src/analysis.py lines 266-292),
including the in-branch auto-fix rerun guarded by `enable_autofix and
self.is_running`. -/
def run_black (env : Env) (st : Settings) (c : Ctr) : Out :=
  stdTool env "black"
    [Ev.prog "Error: black is not available. Please install it.",
     Ev.done LogicalStep.formatting "black is not available."]
    [Ev.prog "Checking code formatting with black...", Ev.prog "Running black..."]
    ["black", "--check", "."]
    (fun out c2 =>
      let recs1 := generate_black_recommendations out
      if st.enableAutofix then
        let alive := env.aliveAt c2.tick
        let c3 : Ctr := ⟨c2.tick + 1, c2.launches⟩
        if alive then
          let r := run_command env ["black", "."] c3
          ⟨Ev.done LogicalStep.formatting out ::
             Ev.prog "Auto-formatting code with black..." :: r.evs,
           recs1 ++ ["Black: Code formatted automatically."], r.ctr⟩
        else ⟨[Ev.done LogicalStep.formatting out], recs1, c3⟩
      else ⟨[Ev.done LogicalStep.formatting out], recs1, c2⟩)
    c

/-- Embeds `AnalysisThread.run_pydocstyle` (src/analysis.py lines 300-318). -/
def run_pydocstyle (env : Env) (c : Ctr) : Out :=
  stdTool env "pydocstyle"
    [Ev.prog "Error: pydocstyle is not available. Please install it.",
     Ev.done LogicalStep.documentation "pydocstyle is not available."]
    [Ev.prog "Checking documentation style with pydocstyle...",
     Ev.prog "Running pydocstyle..."]
    ["pydocstyle", "."]
    (fun out c2 =>
      ⟨[Ev.done LogicalStep.documentation out],
       generate_pydocstyle_recommendations out, c2⟩)
    c

/-- Embeds `AnalysisThread.run_pip_licenses` (src/analysis.py lines 326-344). -/
def run_pip_licenses (env : Env) (c : Ctr) : Out :=
  stdTool env "pip-licenses"
    [Ev.prog "Error: pip-licenses is not available. Please install it.",
     Ev.done LogicalStep.license "pip-licenses is not available."]
    [Ev.prog "Checking license compliance with pip-licenses...",
     Ev.prog "Running pip-licenses..."]
    ["pip-licenses", "--format=json"]
    (fun out c2 =>
      let g := generate_pip_licenses_recommendations (env.licenseDecode out)
      ⟨Ev.done LogicalStep.license out ::
        (if g.2 then [Ev.logWarn "Failed to parse pip-licenses output as JSON."] else []),
       g.1, c2⟩)
    c

/-- Embeds `AnalysisThread.run_pytest` (src/analysis.py lines 360-398),
including the coverage-report post-processing that always emits exactly one
`coverage_completed` signal. -/
def run_pytest (env : Env) (c : Ctr) : Out :=
  stdTool env "pytest"
    [Ev.prog "Error: pytest is not available. Please install it.",
     Ev.done LogicalStep.testing "pytest is not available.",
     Ev.done LogicalStep.coverage "Coverage analysis skipped."]
    [Ev.prog "Running tests with pytest and coverage...", Ev.prog "Running pytest..."]
    ["pytest", "--cov=.", "--cov-report=term-missing",
     "--cov-report=json:" ++ env.testerDir ++ "/coverage.json"]
    (fun out c2 =>
      let recs1 := generate_pytest_recommendations out
      let cov : List Ev × List String :=
        match env.covReport with
        | CovReport.absent =>
            ([Ev.done LogicalStep.coverage "Coverage report not found."], [])
        | CovReport.unparsable =>
            ([Ev.done LogicalStep.coverage "Failed to parse coverage report."], [])
        | CovReport.parsed pct dump =>
            ([Ev.done LogicalStep.coverage dump], generate_coverage_recommendations pct)
      ⟨Ev.done LogicalStep.testing out ::
         Ev.prog "Processing coverage report..." :: cov.1,
       recs1 ++ cov.2, c2⟩)
    c

/-- Embeds `AnalysisThread.run_pip_audit` (src/analysis.py lines 413-429). -/
def run_pip_audit (env : Env) (c : Ctr) : Out :=
  stdTool env "pip-audit"
    [Ev.prog "Error: pip-audit is not available. Please install it.",
     Ev.done LogicalStep.dependencyAudit "pip-audit is not available."]
    [Ev.prog "Auditing dependencies for vulnerabilities with pip-audit...",
     Ev.prog "Running pip-audit..."]
    ["pip-audit", "--format", "json"]
    (fun out c2 =>
      let g := generate_pip_audit_recommendations (env.auditDecode out)
      ⟨Ev.done LogicalStep.dependencyAudit out ::
        (if g.2 then [Ev.logWarn "Failed to parse pip-audit output as JSON."] else []),
       g.1, c2⟩)
    c

/-- Embeds `AnalysisThread.run_autopep8` (src/analysis.py lines 441-454).
Note: unlike the other tool methods there is no signal emission in the
missing case and no second `is_running` read after `run_command`. -/
def run_autopep8 (env : Env) (c : Ctr) : Out :=
  let alive := env.aliveAt c.tick
  let c1 : Ctr := ⟨c.tick + 1, c.launches⟩
  if alive then
    if env.avail "autopep8" then
      let r := run_command env ["autopep8", "--in-place", "--recursive", "."] c1
      ⟨Ev.prog "Auto-fixing code with autopep8..." :: r.evs,
       ["Autopep8: Code auto-formatted to comply with PEP 8."], r.ctr⟩
    else ⟨[Ev.prog "Error: autopep8 is not available. Please install it."], [], c1⟩
  else ⟨[], [], c1⟩

/-- Embeds `AnalysisThread.run_isort` (src/analysis.py lines 456-469); same
shape as `run_autopep8`. -/
def run_isort (env : Env) (c : Ctr) : Out :=
  let alive := env.aliveAt c.tick
  let c1 : Ctr := ⟨c.tick + 1, c.launches⟩
  if alive then
    if env.avail "isort" then
      let r := run_command env ["isort", "."] c1
      ⟨Ev.prog "Sorting imports with isort..." :: r.evs,
       ["Isort: Imports sorted according to style guidelines."], r.ctr⟩
    else ⟨[Ev.prog "Error: isort is not available. Please install it."], [], c1⟩
  else ⟨[], [], c1⟩

/-- Embeds `AnalysisThread.run_flake8_duplication` (src/analysis.py lines
471-489). -/
def run_flake8_duplication (env : Env) (c : Ctr) : Out :=
  stdTool env "flake8"
    [Ev.prog "Error: flake8 is not available. Please install it.",
     Ev.done LogicalStep.codeDuplication "Flake8 is not available."]
    [Ev.prog "Analyzing code duplication with flake8...", Ev.prog "Running flake8..."]
    ["flake8", "--select=DUO",
     "--format=%(path)s:%(row)d:%(col)d: %(code)s %(text)s", "."]
    (fun out c2 =>
      ⟨[Ev.done LogicalStep.codeDuplication out],
       generate_flake8_duplication_recommendations out, c2⟩)
    c

/-- Embeds `AnalysisThread.generate_documentation` (src/analysis.py lines
497-521); the path join of the project path with the docs directory is modelled as string
concatenation with "/". -/
def generate_documentation (env : Env) (c : Ctr) : Out :=
  stdTool env "pdoc"
    [Ev.prog "Error: pdoc is not available. Please install it.",
     Ev.done LogicalStep.docGeneration "pdoc is not available."]
    [Ev.prog "Generating documentation with pdoc...", Ev.prog "Running pdoc..."]
    ["pdoc", "--html", env.projectPath, "--output-dir",
     env.projectPath ++ "/docs", "--force"]
    (fun out c2 =>
      if substrB "Error" out then
        ⟨[Ev.done LogicalStep.docGeneration "Documentation generation failed."],
         ["Documentation: Failed to generate documentation."], c2⟩
      else
        ⟨[Ev.done LogicalStep.docGeneration
            ("Documentation generated at " ++ env.projectPath ++ "/docs")],
         ["Documentation: Project documentation generated using pdoc."], c2⟩)
    c

/-- One branch of `AnalysisThread.run`: if the tool is in `selected_tools`
and `is_running` holds then `run_<tool>()` runs, else the skip message is
emitted through the corresponding signal
(src/analysis.py lines 63-123).  The flag is read only when the tool is
selected (Python short-circuit); when the condition is false the skip
emissions fire. -/
def branch (env : Env) (sel : Bool) (runF : Ctr → Out)
    (skipEvs : List Ev) (c : Ctr) : Out :=
  if sel then
    let alive := env.aliveAt c.tick
    let c1 : Ctr := ⟨c.tick + 1, c.launches⟩
    if alive then runF c1 else ⟨skipEvs, [], c1⟩
  else ⟨skipEvs, [], c⟩

/-- The optional auto-fix block of `AnalysisThread.run` (src/analysis.py
lines 109-113): `if self.enable_autofix and self.is_running:` then
`run_autopep8`/`run_isort` for the selected ones. -/
def autofixBlock (env : Env) (st : Settings) (c : Ctr) : Out :=
  if st.enableAutofix then
    let alive := env.aliveAt c.tick
    let c1 : Ctr := ⟨c.tick + 1, c.launches⟩
    if alive then
      let oA := if "Autopep8" ∈ st.selected then run_autopep8 env c1
                else ⟨[], [], c1⟩
      let oI := if "Isort" ∈ st.selected then run_isort env oA.ctr
                else ⟨[], [], oA.ctr⟩
      ⟨oA.evs ++ oI.evs, oA.recs ++ oI.recs, oI.ctr⟩
    else ⟨[], [], c1⟩
  else ⟨[], [], c⟩

/-- Embeds `AnalysisThread.run` (src/analysis.py lines 59-129): the fixed
branch sequence, the final newline-joined `recommendations` emission and the
final `progress.emit("Analysis completed.")`, both of which are emitted
unconditionally once the branch sequence has been walked. -/
def threadRun (env : Env) (st : Settings) : Out :=
  let o1 := branch env ("Pylint" ∈ st.selected) (run_pylint env)
    [Ev.done LogicalStep.linting "Pylint analysis skipped."] ⟨0, 0⟩
  let o2 := branch env ("Mypy" ∈ st.selected) (run_mypy env st)
    [Ev.done LogicalStep.typeChecking "Mypy analysis skipped."] o1.ctr
  let o3 := branch env ("Radon" ∈ st.selected) (run_radon env st)
    [Ev.done LogicalStep.complexity "Radon analysis skipped."] o2.ctr
  let o4 := branch env ("Bandit" ∈ st.selected) (run_bandit env st)
    [Ev.done LogicalStep.security "Bandit analysis skipped."] o3.ctr
  let o5 := branch env ("Black" ∈ st.selected) (run_black env st)
    [Ev.done LogicalStep.formatting "Black formatting check skipped."] o4.ctr
  let o6 := branch env ("Pydocstyle" ∈ st.selected) (run_pydocstyle env)
    [Ev.done LogicalStep.documentation "Pydocstyle analysis skipped."] o5.ctr
  let o7 := branch env ("Pip-Licenses" ∈ st.selected) (run_pip_licenses env)
    [Ev.done LogicalStep.license "License compliance check skipped."] o6.ctr
  let o8 := branch env ("Pytest" ∈ st.selected) (run_pytest env)
    [Ev.done LogicalStep.testing "Testing skipped.",
     Ev.done LogicalStep.coverage "Coverage analysis skipped."] o7.ctr
  let o9 := branch env ("Pip-Audit" ∈ st.selected) (run_pip_audit env)
    [Ev.done LogicalStep.dependencyAudit "Dependency audit skipped."] o8.ctr
  let oA := autofixBlock env st o9.ctr
  let oB := branch env ("Flake8" ∈ st.selected) (run_flake8_duplication env)
    [Ev.done LogicalStep.codeDuplication "Flake8 code duplication analysis skipped."] oA.ctr
  let oC := branch env ("Documentation Generation" ∈ st.selected) (generate_documentation env)
    [Ev.done LogicalStep.docGeneration "Documentation generation skipped."] oB.ctr
  let allRecs := o1.recs ++ o2.recs ++ o3.recs ++ o4.recs ++ o5.recs ++ o6.recs ++
    o7.recs ++ o8.recs ++ o9.recs ++ oA.recs ++ oB.recs ++ oC.recs
  ⟨o1.evs ++ o2.evs ++ o3.evs ++ o4.evs ++ o5.evs ++ o6.evs ++ o7.evs ++ o8.evs ++
     o9.evs ++ oA.evs ++ oB.evs ++ oC.evs ++
     [Ev.recsOut (String.intercalate "\n" allRecs), Ev.prog "Analysis completed."],
   allRecs, oC.ctr⟩

/-- The event trace of one analysis run. -/
def runTrace (env : Env) (st : Settings) : List Ev :=
  (threadRun env st).evs

/-- Embeds `AnalyzerApp.format_pylint_output` (src/ui.py lines 689-700):
formatted issue lines on decode success, the raw output when `json.loads`
fails. -/
def format_pylint_output (raw : String) (decoded : Option (List PylintIssue)) :
    String :=
  match decoded with
  | none => raw
  | some issues =>
    if issues.isEmpty then ""
    else
      String.join (issues.map (fun i =>
        i.itype.toUpper ++ " - " ++ i.message ++ " (Line " ++ toString i.line ++
          ") in " ++ i.path ++ "\n"))

/-- The fifty-dash separator the UI handlers build with string repetition. -/
def dashLine : String := "--------------------------------------------------"

/-- Python `str.capitalize` restricted to ASCII: first character upper-cased,
the rest lower-cased. -/
def pyCapitalize (s : String) : String :=
  match s.data with
  | [] => ""
  | c :: rest => String.mk (c.toUpper :: rest.map Char.toLower)

/-- Embeds the displayed text of `AnalyzerApp.process_complexity_output`
(src/ui.py lines 708-723): the blocks above the radon threshold on decode
success, the raw output when `json.loads` fails. -/
def format_complexity_output (raw : String)
    (decoded : Option (List (String × List RadonBlock))) (threshold : Int) :
    String :=
  match decoded with
  | none => raw
  | some modules =>
    let formatted := String.join (modules.map (fun md =>
      String.join ((md.2.filter (fun b => b.complexity > threshold)).map (fun b =>
        b.name ++ " - CC: " ++ toString b.complexity ++ " (Line " ++
          toString b.lineno ++ ")\n"))))
    if formatted = "" then "No complexity issues found." else formatted

/-- Embeds the displayed text of `AnalyzerApp.process_security_output`
(src/ui.py lines 725-752): the formatted issue blocks on decode success, the
raw output when `json.loads` fails. -/
def format_security_output (raw : String)
    (decoded : Option (List BanditIssue)) : String :=
  match decoded with
  | none => raw
  | some issues =>
    if issues.isEmpty then "No security issues found."
    else
      String.join (issues.map (fun i =>
        "Severity: " ++ pyCapitalize i.severity ++ "\n" ++
        "Confidence: " ++ pyCapitalize i.confidence ++ "\n" ++
        "Issue: " ++ i.text ++ "\n" ++
        "File: " ++ i.filename ++ ":" ++ i.line ++ "\n" ++
        "Code:\n" ++ i.code ++ "\n" ++ dashLine ++ "\n"))

/-- Embeds the displayed text of `AnalyzerApp.process_license_output`
(src/ui.py lines 780-807): the formatted package blocks on decode success
(the empty-list case shows the no-dependencies message and returns early),
the raw output when `json.loads` fails. -/
def format_license_output (raw : String) (decoded : Option (List LicPkg)) :
    String :=
  match decoded with
  | none => raw
  | some pkgs =>
    if pkgs.isEmpty then "No dependencies found."
    else
      String.join (pkgs.map (fun p =>
        "Package: " ++ p.name ++ "\n" ++ "Version: " ++ p.version ++ "\n" ++
        "License: " ++ p.lic ++ "\n" ++ dashLine ++ "\n"))

/-- Embeds the displayed text of `AnalyzerApp.process_dependency_output`
(src/ui.py lines 843-871): the formatted vulnerability blocks on decode
success; when `json.loads` fails the handler shows the fixed string
"Failed to parse dependency vulnerabilities.", not the raw output. -/
def format_dependency_output (_raw : String)
    (decoded : Option (List AuditVuln)) : String :=
  match decoded with
  | none => "Failed to parse dependency vulnerabilities."
  | some vulns =>
    if vulns.isEmpty then "No dependency vulnerabilities found."
    else
      String.join (vulns.map (fun v =>
        "Package: " ++ v.depName ++ "\n" ++ "Version: " ++ v.version ++ "\n" ++
        "Vulnerability ID: " ++ v.vulnId ++ "\n" ++
        "Description: " ++ v.description ++ "\n" ++ dashLine ++ "\n"))

/-- Embeds the displayed text of `AnalyzerApp.process_coverage_output`
(src/ui.py lines 821-841): the total and per-file coverage on decode
success; when `json.loads` fails the handler shows the fixed string
"Failed to parse coverage report.", not the raw output. -/
def format_coverage_output (_raw : String) (decoded : Option CovData) :
    String :=
  match decoded with
  | none => "Failed to parse coverage report."
  | some d =>
    "Total Coverage: " ++ toString d.pct ++ "%\n\n" ++ "Coverage by File:\n" ++
      String.join (d.files.map (fun f => f.1 ++ ": " ++ toString f.2 ++ "%\n"))

/-- The logical steps a single event marks complete in the UI: each
slot of each `*_completed` signal calls `AnalyzerApp.step_completed` with its step
name, except that `process_license_output` (src/ui.py lines 780-789) returns
early — skipping `step_completed` — when the payload decodes to an empty
JSON list. -/
def evMarks (env : Env) (e : Ev) : List LogicalStep :=
  match e with
  | Ev.done s p =>
    if s = LogicalStep.license ∧ env.licenseDecode p = some [] then [] else [s]
  | _ => []

/-- The ordered list of `step_completed` invocations of one run. -/
def markedList (env : Env) (st : Settings) : List LogicalStep :=
  (runTrace env st).flatMap (evMarks env)

/-- Embeds the counting in `AnalyzerApp.step_completed` (src/ui.py lines
675-680): `completed_steps` is incremented once per invocation whose step
name is in `self.steps`.  `completedUpTo` gives the counter after the first
`n` invocations. -/
def completedUpTo (env : Env) (st : Settings) (n : Nat) : Nat :=
  (((markedList env st).take n).filter
    (fun s => decide (s ∈ stepsList st.selected))).length

/-- The value of `completed_steps` after the whole run. -/
def completedCount (env : Env) (st : Settings) : Nat :=
  ((markedList env st).filter (fun s => decide (s ∈ stepsList st.selected))).length

/-- Outcome of the start gate of `AnalyzerApp.run_analysis` (src/ui.py lines
564-617): missing project path, rejection when the computed logical-step
total is zero (warning dialog, buttons re-enabled, no `AnalysisThread`
constructed), or a started thread. -/
inductive StartOutcome
  | noProject
  | rejected
  | started (total : Nat)
  deriving DecidableEq, Repr

/-- Embeds the start gate of `AnalyzerApp.run_analysis`. -/
def run_analysis_gate (projectPath : String) (selected : List String) :
    StartOutcome :=
  if projectPath = "" then StartOutcome.noProject
  else if totalSteps selected = 0 then StartOutcome.rejected
  else StartOutcome.started (totalSteps selected)

/-- What `AnalyzerApp.analysis_finished` (src/ui.py lines 1259-1295) does
when the `finished` signal of the thread fires — which Qt fires after `run`
returns and also after the `terminate()` call in `stop`: the progress bar is set to
100, the status label to "Analysis completed.", and `save_metrics` appends a
snapshot unless `enable_metrics_tracking` is false. -/
structure SessionSummary where
  finalPct : Int
  finalStatus : String
  snapshotAppended : Bool
  deriving DecidableEq, Repr

/-- Embeds `AnalyzerApp.analysis_finished` plus `AnalyzerApp.save_metrics`. -/
def analysis_finished (st : Settings) : SessionSummary :=
  ⟨100, "Analysis completed.", st.enableMetricsTracking⟩

/-- Projection of a trace to the `step_completed`-relevant signal emissions. -/
def doneOf (evs : List Ev) : List LogicalStep :=
  evs.filterMap (fun e =>
    match e with
    | Ev.done s _ => some s
    | _ => none)

/-- Projection of a trace to the payloads of the signal emissions. -/
def donePayloads (evs : List Ev) : List String :=
  evs.filterMap (fun e =>
    match e with
    | Ev.done _ p => some p
    | _ => none)

/-- Projection of a trace to the subprocess launches (command and the index
of the `is_running` read that guarded the spawn). -/
def launchesOf (evs : List Ev) : List (List String × Nat) :=
  evs.filterMap (fun e =>
    match e with
    | Ev.launch cmd k => some (cmd, k)
    | _ => none)

/-- The fixed sequence of logical-step signal emissions of an uncancelled
run: every branch emits its completion signal exactly once (run, missing, or
skipped), the `profiling_completed` signal is never emitted. -/
def canonicalDone : List LogicalStep :=
  [LogicalStep.linting, LogicalStep.typeChecking, LogicalStep.complexity,
   LogicalStep.security, LogicalStep.formatting, LogicalStep.documentation,
   LogicalStep.license, LogicalStep.testing, LogicalStep.coverage,
   LogicalStep.dependencyAudit, LogicalStep.codeDuplication,
   LogicalStep.docGeneration]

/-- Whether one event avoids the empty-decoded-list early return of
`process_license_output`. -/
def licEvOk (env : Env) (e : Ev) : Bool :=
  match e with
  | Ev.done s p =>
      !(decide (s = LogicalStep.license ∧ env.licenseDecode p = some []))
  | _ => true

/-- Whether every `license_completed` payload of the trace avoids the
empty-decoded-list early return of `process_license_output`. -/
def licenseOkB (env : Env) (evs : List Ev) : Bool :=
  evs.all (licEvOk env)

/-- The distinct issue-type strings of a decoded pylint report, in insertion
order: the contents of the Python `set` built by
`generate_pylint_recommendations`. -/
def typesOf (decoded : Option (List PylintIssue)) : List String :=
  match decoded with
  | none => []
  | some issues => (issues.map PylintIssue.itype).dedup

/-- A function is an admissible iteration order of the pylint issue-type set
for a given decoded report when it permutes the elements of the set. -/
def iterValid (decoded : Option (List PylintIssue))
    (it : List String → List String) : Prop :=
  (it (typesOf decoded)).Perm (typesOf decoded)

/-- The availability-guarded tools whose missing-executable path emits a
synthetic "... is not available." completion payload, with the checked
executable name, the logical step whose signal carries the payload, and the
payload itself (src/analysis.py, the `run_<tool>` methods). -/
def guardedTable : List (String × String × LogicalStep × String) :=
  [("Pylint", "pylint", LogicalStep.linting, "pylint is not available."),
   ("Mypy", "mypy", LogicalStep.typeChecking, "mypy is not available."),
   ("Radon", "radon", LogicalStep.complexity, "radon is not available."),
   ("Bandit", "bandit", LogicalStep.security, "bandit is not available."),
   ("Black", "black", LogicalStep.formatting, "black is not available."),
   ("Pydocstyle", "pydocstyle", LogicalStep.documentation,
    "pydocstyle is not available."),
   ("Pip-Licenses", "pip-licenses", LogicalStep.license,
    "pip-licenses is not available."),
   ("Pytest", "pytest", LogicalStep.testing, "pytest is not available."),
   ("Pip-Audit", "pip-audit", LogicalStep.dependencyAudit,
    "pip-audit is not available."),
   ("Flake8", "flake8", LogicalStep.codeDuplication, "Flake8 is not available."),
   ("Documentation Generation", "pdoc", LogicalStep.docGeneration,
    "pdoc is not available.")]

/-- Lookup in `guardedTable` by tool name. -/
def guardedMissing (tool : String) :
    Option (String × LogicalStep × String) :=
  (guardedTable.find? (fun pr => pr.1 = tool)).map Prod.snd

/-- A concrete environment builder for evaluating the model: fixed paths,
subprocesses that exit 0 with empty output, JSON decoding that always fails,
a missing coverage report, and identity set-iteration order. -/
def mkEnv (availF : String → Bool) (cancel : Option Nat) : Env :=
  ⟨"/proj", "/tester", availF, cancel, fun _ => ProcOutcome.success "" "",
   fun _ => none, fun _ => none, fun _ => none, fun _ => none, fun _ => none,
   CovReport.absent, id⟩

/-- A concrete settings builder: the given selection and auto-fix flag with
the source defaults for the remaining options. -/
def mkSettings (sel : List String) (autofix : Bool) : Settings :=
  ⟨sel, autofix, true, "MEDIUM", 10, true⟩

/-- The full tool catalog of `AnalyzerApp.available_tools`
(src/ui.py lines 202-205), which is also the default tool selection. -/
def allTools : List String :=
  ["Pylint", "Flake8", "Mypy", "Radon", "Bandit", "Black", "Autopep8", "Isort",
   "Pydocstyle", "Pip-Licenses", "Pytest", "Coverage", "Pip-Audit",
   "Code Duplication", "Profiling", "Documentation Generation"]

/-- Every subprocess launch of the event list was guarded by an `is_running`
read that returned true, and its command starts with an executable that the
availability check approved. -/
def launchesOk (env : Env) (evs : List Ev) : Prop :=
  ∀ cmd k, (cmd, k) ∈ launchesOf evs → env.aliveAt k = true ∧
    ∃ e, cmd.head? = some e ∧ env.avail e = true

/-- A decoded pylint report with two distinct issue types, for evaluating the
recommendation generator. -/
def pylintTwoTypes : Option (List PylintIssue) :=
  some [⟨"convention", "m1", 1, "a.py"⟩, ⟨"error", "m2", 2, "a.py"⟩]

/-! ## Structural lemmas about the run trace -/

theorem aliveAt_of_none {env : Env} (h : env.cancelAt = none) (k : Nat) :
    env.aliveAt k = true := by
  simp [Env.aliveAt, h]

theorem doneOf_append (a b : List Ev) : doneOf (a ++ b) = doneOf a ++ doneOf b := by
  simp [doneOf, List.filterMap_append]

theorem launchesOf_append (a b : List Ev) :
    launchesOf (a ++ b) = launchesOf a ++ launchesOf b := by
  simp [launchesOf, List.filterMap_append]

theorem donePayloads_append (a b : List Ev) :
    donePayloads (a ++ b) = donePayloads a ++ donePayloads b := by
  simp [donePayloads, List.filterMap_append]

theorem doneOf_run_command (env : Env) (cmd : List String) (c : Ctr) :
    doneOf (run_command env cmd c).evs = [] := by
  simp only [run_command]
  split
  · split <;> simp [doneOf]
  · simp [doneOf]

theorem launchesOf_run_command (env : Env) (cmd : List String) (c : Ctr) :
    launchesOf (run_command env cmd c).evs =
      if env.aliveAt c.tick then [(cmd, c.tick)] else [] := by
  simp only [run_command]
  split
  · split <;> simp_all [launchesOf]
  · simp_all [launchesOf]

theorem branch_done_eq (env : Env) {runF : Ctr → Out} {skipEvs : List Ev}
    {seg : List LogicalStep}
    (hrun : ∀ c, doneOf (runF c).evs = seg) (hskip : doneOf skipEvs = seg)
    (sel : Bool) (c : Ctr) :
    doneOf (branch env sel runF skipEvs c).evs = seg := by
  simp only [branch]
  split
  · split
    · exact hrun _
    · exact hskip
  · exact hskip

theorem branch_done_sub (env : Env) {runF : Ctr → Out} {skipEvs : List Ev}
    {seg : List LogicalStep}
    (hrun : ∀ c, List.Sublist (doneOf (runF c).evs) seg) (hskip : doneOf skipEvs = seg)
    (sel : Bool) (c : Ctr) :
    List.Sublist (doneOf (branch env sel runF skipEvs c).evs) seg := by
  simp only [branch]
  split
  · split
    · exact hrun _
    · exact hskip ▸ List.Sublist.refl seg
  · exact hskip ▸ List.Sublist.refl seg

theorem stdTool_done_eq {env : Env} {ex : String} {missingEvs startEvs : List Ev}
    {cmd : List String} {finish : String → Ctr → Out} {seg : List LogicalStep}
    (hc : env.cancelAt = none)
    (hmiss : doneOf missingEvs = seg)
    (hstart : doneOf startEvs = [])
    (hfin : ∀ out c, doneOf (finish out c).evs = seg) (c : Ctr) :
    doneOf (stdTool env ex missingEvs startEvs cmd finish c).evs = seg := by
  simp only [stdTool, aliveAt_of_none hc, if_true]
  split
  · simp [doneOf_append, hstart, doneOf_run_command, hfin]
  · exact hmiss

theorem stdTool_done_sub {env : Env} {ex : String} {missingEvs startEvs : List Ev}
    {cmd : List String} {finish : String → Ctr → Out} {seg : List LogicalStep}
    (hmiss : doneOf missingEvs = seg)
    (hstart : doneOf startEvs = [])
    (hfin : ∀ out c, List.Sublist (doneOf (finish out c).evs) seg) (c : Ctr) :
    List.Sublist (doneOf (stdTool env ex missingEvs startEvs cmd finish c).evs) seg := by
  simp only [stdTool]
  split
  · split
    · split
      · simp only [doneOf_append, hstart, doneOf_run_command, List.nil_append]
        exact hfin _ _
      · simp only [doneOf_append, hstart, doneOf_run_command, List.nil_append,
          List.append_nil]
        exact List.nil_sublist seg
    · exact hmiss ▸ List.Sublist.refl seg
  · simp only [doneOf, List.filterMap_nil]
    exact List.nil_sublist seg

@[simp] theorem doneOf_nil : doneOf [] = [] := rfl

@[simp] theorem doneOf_cons_done (s : LogicalStep) (p : String) (t : List Ev) :
    doneOf (Ev.done s p :: t) = s :: doneOf t := rfl

@[simp] theorem doneOf_cons_prog (m : String) (t : List Ev) :
    doneOf (Ev.prog m :: t) = doneOf t := rfl

@[simp] theorem doneOf_cons_launch (cmd : List String) (k : Nat) (t : List Ev) :
    doneOf (Ev.launch cmd k :: t) = doneOf t := rfl

@[simp] theorem doneOf_cons_logWarn (m : String) (t : List Ev) :
    doneOf (Ev.logWarn m :: t) = doneOf t := rfl

@[simp] theorem doneOf_cons_recsOut (m : String) (t : List Ev) :
    doneOf (Ev.recsOut m :: t) = doneOf t := rfl

@[simp] theorem launchesOf_nil : launchesOf [] = [] := rfl

@[simp] theorem launchesOf_cons_done (s : LogicalStep) (p : String) (t : List Ev) :
    launchesOf (Ev.done s p :: t) = launchesOf t := rfl

@[simp] theorem launchesOf_cons_prog (m : String) (t : List Ev) :
    launchesOf (Ev.prog m :: t) = launchesOf t := rfl

@[simp] theorem launchesOf_cons_launch (cmd : List String) (k : Nat) (t : List Ev) :
    launchesOf (Ev.launch cmd k :: t) = (cmd, k) :: launchesOf t := rfl

@[simp] theorem launchesOf_cons_logWarn (m : String) (t : List Ev) :
    launchesOf (Ev.logWarn m :: t) = launchesOf t := rfl

@[simp] theorem launchesOf_cons_recsOut (m : String) (t : List Ev) :
    launchesOf (Ev.recsOut m :: t) = launchesOf t := rfl

theorem run_pylint_done_eq (env : Env) (hc : env.cancelAt = none) (c : Ctr) :
    doneOf (run_pylint env c).evs = [LogicalStep.linting] := by
  unfold run_pylint
  refine stdTool_done_eq hc (by simp) (by simp) ?_ c
  intro out c2
  dsimp only
  split <;> simp

theorem run_pylint_done_sub (env : Env) (c : Ctr) :
    List.Sublist (doneOf (run_pylint env c).evs) [LogicalStep.linting] := by
  unfold run_pylint
  refine stdTool_done_sub (by simp) (by simp) ?_ c
  intro out c2
  dsimp only
  split <;> simp

theorem run_mypy_done_eq (env : Env) (st : Settings) (hc : env.cancelAt = none)
    (c : Ctr) :
    doneOf (run_mypy env st c).evs = [LogicalStep.typeChecking] := by
  unfold run_mypy
  refine stdTool_done_eq hc (by simp) (by simp) ?_ c
  intro out c2
  simp

theorem run_mypy_done_sub (env : Env) (st : Settings) (c : Ctr) :
    List.Sublist (doneOf (run_mypy env st c).evs) [LogicalStep.typeChecking] := by
  unfold run_mypy
  refine stdTool_done_sub (by simp) (by simp) ?_ c
  intro out c2
  simp

theorem run_radon_done_eq (env : Env) (st : Settings) (hc : env.cancelAt = none)
    (c : Ctr) :
    doneOf (run_radon env st c).evs = [LogicalStep.complexity] := by
  unfold run_radon
  refine stdTool_done_eq hc (by simp) (by simp) ?_ c
  intro out c2
  dsimp only
  split <;> simp

theorem run_radon_done_sub (env : Env) (st : Settings) (c : Ctr) :
    List.Sublist (doneOf (run_radon env st c).evs) [LogicalStep.complexity] := by
  unfold run_radon
  refine stdTool_done_sub (by simp) (by simp) ?_ c
  intro out c2
  dsimp only
  split <;> simp

theorem run_bandit_done_eq (env : Env) (st : Settings) (hc : env.cancelAt = none)
    (c : Ctr) :
    doneOf (run_bandit env st c).evs = [LogicalStep.security] := by
  unfold run_bandit
  refine stdTool_done_eq hc (by simp) (by simp) ?_ c
  intro out c2
  dsimp only
  split <;> simp

theorem run_bandit_done_sub (env : Env) (st : Settings) (c : Ctr) :
    List.Sublist (doneOf (run_bandit env st c).evs) [LogicalStep.security] := by
  unfold run_bandit
  refine stdTool_done_sub (by simp) (by simp) ?_ c
  intro out c2
  dsimp only
  split <;> simp

theorem run_black_done_eq (env : Env) (st : Settings) (hc : env.cancelAt = none)
    (c : Ctr) :
    doneOf (run_black env st c).evs = [LogicalStep.formatting] := by
  unfold run_black
  refine stdTool_done_eq hc (by simp) (by simp) ?_ c
  intro out c2
  dsimp only
  split
  · split <;> simp [doneOf_run_command]
  · simp

theorem run_black_done_sub (env : Env) (st : Settings) (c : Ctr) :
    List.Sublist (doneOf (run_black env st c).evs) [LogicalStep.formatting] := by
  unfold run_black
  refine stdTool_done_sub (by simp) (by simp) ?_ c
  intro out c2
  dsimp only
  split
  · split <;> simp [doneOf_run_command]
  · simp

theorem run_pydocstyle_done_eq (env : Env) (hc : env.cancelAt = none) (c : Ctr) :
    doneOf (run_pydocstyle env c).evs = [LogicalStep.documentation] := by
  unfold run_pydocstyle
  refine stdTool_done_eq hc (by simp) (by simp) ?_ c
  intro out c2
  simp

theorem run_pydocstyle_done_sub (env : Env) (c : Ctr) :
    List.Sublist (doneOf (run_pydocstyle env c).evs) [LogicalStep.documentation] := by
  unfold run_pydocstyle
  refine stdTool_done_sub (by simp) (by simp) ?_ c
  intro out c2
  simp

theorem run_pip_licenses_done_eq (env : Env) (hc : env.cancelAt = none) (c : Ctr) :
    doneOf (run_pip_licenses env c).evs = [LogicalStep.license] := by
  unfold run_pip_licenses
  refine stdTool_done_eq hc (by simp) (by simp) ?_ c
  intro out c2
  dsimp only
  split <;> simp

theorem run_pip_licenses_done_sub (env : Env) (c : Ctr) :
    List.Sublist (doneOf (run_pip_licenses env c).evs) [LogicalStep.license] := by
  unfold run_pip_licenses
  refine stdTool_done_sub (by simp) (by simp) ?_ c
  intro out c2
  dsimp only
  split <;> simp

theorem run_pytest_done_eq (env : Env) (hc : env.cancelAt = none) (c : Ctr) :
    doneOf (run_pytest env c).evs = [LogicalStep.testing, LogicalStep.coverage] := by
  unfold run_pytest
  refine stdTool_done_eq hc (by simp) (by simp) ?_ c
  intro out c2
  dsimp only
  split <;> simp

theorem run_pytest_done_sub (env : Env) (c : Ctr) :
    List.Sublist (doneOf (run_pytest env c).evs)
      [LogicalStep.testing, LogicalStep.coverage] := by
  unfold run_pytest
  refine stdTool_done_sub (by simp) (by simp) ?_ c
  intro out c2
  dsimp only
  split <;> simp

theorem run_pip_audit_done_eq (env : Env) (hc : env.cancelAt = none) (c : Ctr) :
    doneOf (run_pip_audit env c).evs = [LogicalStep.dependencyAudit] := by
  unfold run_pip_audit
  refine stdTool_done_eq hc (by simp) (by simp) ?_ c
  intro out c2
  dsimp only
  split <;> simp

theorem run_pip_audit_done_sub (env : Env) (c : Ctr) :
    List.Sublist (doneOf (run_pip_audit env c).evs) [LogicalStep.dependencyAudit] := by
  unfold run_pip_audit
  refine stdTool_done_sub (by simp) (by simp) ?_ c
  intro out c2
  dsimp only
  split <;> simp

theorem run_flake8_done_eq (env : Env) (hc : env.cancelAt = none) (c : Ctr) :
    doneOf (run_flake8_duplication env c).evs = [LogicalStep.codeDuplication] := by
  unfold run_flake8_duplication
  refine stdTool_done_eq hc (by simp) (by simp) ?_ c
  intro out c2
  simp

theorem run_flake8_done_sub (env : Env) (c : Ctr) :
    List.Sublist (doneOf (run_flake8_duplication env c).evs)
      [LogicalStep.codeDuplication] := by
  unfold run_flake8_duplication
  refine stdTool_done_sub (by simp) (by simp) ?_ c
  intro out c2
  simp

theorem generate_documentation_done_eq (env : Env) (hc : env.cancelAt = none)
    (c : Ctr) :
    doneOf (generate_documentation env c).evs = [LogicalStep.docGeneration] := by
  unfold generate_documentation
  refine stdTool_done_eq hc (by simp) (by simp) ?_ c
  intro out c2
  dsimp only
  split <;> simp

theorem generate_documentation_done_sub (env : Env) (c : Ctr) :
    List.Sublist (doneOf (generate_documentation env c).evs)
      [LogicalStep.docGeneration] := by
  unfold generate_documentation
  refine stdTool_done_sub (by simp) (by simp) ?_ c
  intro out c2
  dsimp only
  split <;> simp

theorem run_autopep8_done (env : Env) (c : Ctr) :
    doneOf (run_autopep8 env c).evs = [] := by
  simp only [run_autopep8]
  split
  · split
    · simp [doneOf_run_command]
    · simp
  · simp

theorem run_isort_done (env : Env) (c : Ctr) :
    doneOf (run_isort env c).evs = [] := by
  simp only [run_isort]
  split
  · split
    · simp [doneOf_run_command]
    · simp
  · simp

theorem autofixBlock_done (env : Env) (st : Settings) (c : Ctr) :
    doneOf (autofixBlock env st c).evs = [] := by
  simp only [autofixBlock]
  split
  · split
    · simp [doneOf_append, run_autopep8_done, run_isort_done]
      split <;> split <;> simp [run_autopep8_done, run_isort_done]
    · simp
  · simp

theorem doneOf_runTrace_eq (env : Env) (st : Settings) (hc : env.cancelAt = none) :
    doneOf (runTrace env st) = canonicalDone := by
  simp only [runTrace, threadRun]
  simp only [doneOf_append]
  rw [branch_done_eq env (run_pylint_done_eq env hc) (by simp),
      branch_done_eq env (run_mypy_done_eq env st hc) (by simp),
      branch_done_eq env (run_radon_done_eq env st hc) (by simp),
      branch_done_eq env (run_bandit_done_eq env st hc) (by simp),
      branch_done_eq env (run_black_done_eq env st hc) (by simp),
      branch_done_eq env (run_pydocstyle_done_eq env hc) (by simp),
      branch_done_eq env (run_pip_licenses_done_eq env hc) (by simp),
      branch_done_eq env (run_pytest_done_eq env hc) (by simp),
      branch_done_eq env (run_pip_audit_done_eq env hc) (by simp),
      branch_done_eq env (run_flake8_done_eq env hc) (by simp),
      branch_done_eq env (generate_documentation_done_eq env hc) (by simp),
      autofixBlock_done env st]
  simp [canonicalDone]

theorem doneOf_runTrace_sub (env : Env) (st : Settings) :
    List.Sublist (doneOf (runTrace env st)) canonicalDone := by
  simp only [runTrace, threadRun]
  simp only [doneOf_append]
  refine List.Sublist.trans ?_ (by simp [canonicalDone] : List.Sublist
    ([LogicalStep.linting] ++ [LogicalStep.typeChecking] ++ [LogicalStep.complexity] ++
     [LogicalStep.security] ++ [LogicalStep.formatting] ++ [LogicalStep.documentation] ++
     [LogicalStep.license] ++ [LogicalStep.testing, LogicalStep.coverage] ++
     [LogicalStep.dependencyAudit] ++ ([] : List LogicalStep) ++
     [LogicalStep.codeDuplication] ++ [LogicalStep.docGeneration] ++
     ([] : List LogicalStep)) canonicalDone)
  refine List.Sublist.append ?_ ?_
  · refine List.Sublist.append ?_ ?_
    · refine List.Sublist.append ?_ ?_
      · refine List.Sublist.append ?_ ?_
        · refine List.Sublist.append ?_ ?_
          · refine List.Sublist.append ?_ ?_
            · refine List.Sublist.append ?_ ?_
              · refine List.Sublist.append ?_ ?_
                · refine List.Sublist.append ?_ ?_
                  · refine List.Sublist.append ?_ ?_
                    · refine List.Sublist.append ?_ ?_
                      · refine List.Sublist.append ?_ ?_
                        · exact branch_done_sub env (run_pylint_done_sub env) (by simp) _ _
                        · exact branch_done_sub env (run_mypy_done_sub env st) (by simp) _ _
                      · exact branch_done_sub env (run_radon_done_sub env st) (by simp) _ _
                    · exact branch_done_sub env (run_bandit_done_sub env st) (by simp) _ _
                  · exact branch_done_sub env (run_black_done_sub env st) (by simp) _ _
                · exact branch_done_sub env (run_pydocstyle_done_sub env) (by simp) _ _
              · exact branch_done_sub env (run_pip_licenses_done_sub env) (by simp) _ _
            · exact branch_done_sub env (run_pytest_done_sub env) (by simp) _ _
          · exact branch_done_sub env (run_pip_audit_done_sub env) (by simp) _ _
        · exact (autofixBlock_done env st _) ▸ List.nil_sublist _
      · exact branch_done_sub env (run_flake8_done_sub env) (by simp) _ _
    · exact branch_done_sub env (generate_documentation_done_sub env) (by simp) _ _
  · simp

theorem canonicalDone_nodup : canonicalDone.Nodup := by decide

theorem marks_sublist_done (env : Env) : ∀ evs : List Ev,
    List.Sublist (evs.flatMap (evMarks env)) (doneOf evs) := by
  intro evs
  induction evs with
  | nil => simp
  | cons e t ih =>
    cases e with
    | done s p =>
      simp only [List.flatMap_cons, evMarks, doneOf_cons_done]
      split
      · simpa using List.Sublist.cons s ih
      · simpa using List.Sublist.cons₂ s ih
    | prog m => simpa [evMarks] using ih
    | launch cmd k => simpa [evMarks] using ih
    | logWarn m => simpa [evMarks] using ih
    | recsOut m => simpa [evMarks] using ih

theorem licEvOk_done_iff (env : Env) (s : LogicalStep) (p : String) :
    licEvOk env (Ev.done s p) = true ↔
      ¬(s = LogicalStep.license ∧ env.licenseDecode p = some []) := by
  simp only [licEvOk, Bool.not_eq_true', decide_eq_false_iff_not]

theorem marks_eq_done (env : Env) : ∀ evs : List Ev,
    licenseOkB env evs = true → evs.flatMap (evMarks env) = doneOf evs := by
  intro evs
  induction evs with
  | nil => intro _; simp
  | cons e t ih =>
    intro h
    rw [licenseOkB, List.all_cons, Bool.and_eq_true] at h
    obtain ⟨he, ht⟩ := h
    have ht' : licenseOkB env t = true := ht
    cases e with
    | done s p =>
      have hcond : ¬(s = LogicalStep.license ∧ env.licenseDecode p = some []) :=
        (licEvOk_done_iff env s p).mp he
      simp only [List.flatMap_cons, evMarks, if_neg hcond, doneOf_cons_done]
      simp [ih ht']
    | prog m => simpa [evMarks] using ih ht'
    | launch cmd k => simpa [evMarks] using ih ht'
    | logWarn m => simpa [evMarks] using ih ht'
    | recsOut m => simpa [evMarks] using ih ht'

theorem tools_to_steps_no_profiling (t : String) (ht : t ≠ "Profiling") :
    LogicalStep.profiling ∉ tools_to_steps t := by
  intro hmem
  unfold tools_to_steps at hmem
  cases hfind : toolStepTable.find? (fun pr => pr.1 = t) with
  | none => rw [hfind] at hmem; simp at hmem
  | some pr =>
    rw [hfind] at hmem
    replace hmem : LogicalStep.profiling ∈ pr.2 := hmem
    have hp : (pr.1 = t) = true := by
      have := List.find?_some hfind
      simpa using this
    have hkey : pr.1 = t := by simpa using hp
    have htab := List.mem_of_find?_eq_some hfind
    have hforall : ∀ q ∈ toolStepTable,
        LogicalStep.profiling ∈ q.2 → q.1 = "Profiling" := by decide
    exact ht (hkey ▸ hforall pr htab hmem)

theorem tools_to_steps_sub (t : String) :
    ∀ s ∈ tools_to_steps t, s ∈ LogicalStep.profiling :: canonicalDone := by
  intro s hs
  unfold tools_to_steps at hs
  cases hfind : toolStepTable.find? (fun pr => pr.1 = t) with
  | none => rw [hfind] at hs; simp at hs
  | some pr =>
    rw [hfind] at hs
    replace hs : s ∈ pr.2 := hs
    have htab := List.mem_of_find?_eq_some hfind
    have hforall : ∀ q ∈ toolStepTable, ∀ x ∈ q.2,
        x ∈ LogicalStep.profiling :: canonicalDone := by decide
    exact hforall pr htab s hs

theorem stepsList_sub_canonical (selected : List String)
    (h : "Profiling" ∉ selected) :
    ∀ s ∈ stepsList selected, s ∈ canonicalDone := by
  intro s hs
  rw [stepsList, List.mem_dedup, List.mem_flatMap] at hs
  obtain ⟨t, htsel, hts⟩ := hs
  have hne : t ≠ "Profiling" := fun he => h (he ▸ htsel)
  have hmem := tools_to_steps_sub t s hts
  rw [List.mem_cons] at hmem
  rcases hmem with hp | hc
  · exact absurd (hp ▸ hts) (tools_to_steps_no_profiling t hne)
  · exact hc

theorem nodup_length_le {α : Type} [DecidableEq α] {l l' : List α}
    (hl : l.Nodup) (hl' : l'.Nodup) (hsub : ∀ x ∈ l, x ∈ l') :
    l.length ≤ l'.length := by
  rw [← List.toFinset_card_of_nodup hl, ← List.toFinset_card_of_nodup hl']
  apply Finset.card_le_card
  intro x hx
  exact List.mem_toFinset.mpr (hsub x (List.mem_toFinset.mp hx))

theorem nodup_length_eq {α : Type} [DecidableEq α] {l l' : List α}
    (hl : l.Nodup) (hl' : l'.Nodup) (hsub : ∀ x, x ∈ l ↔ x ∈ l') :
    l.length = l'.length := by
  rw [← List.toFinset_card_of_nodup hl, ← List.toFinset_card_of_nodup hl']
  congr 1
  ext x
  simp only [List.mem_toFinset]
  exact hsub x

theorem launchesOk_of_nil {env : Env} {evs : List Ev}
    (h : launchesOf evs = []) : launchesOk env evs := by
  intro cmd k hmem
  rw [h] at hmem
  cases hmem

theorem launchesOk_append {env : Env} {a b : List Ev}
    (ha : launchesOk env a) (hb : launchesOk env b) :
    launchesOk env (a ++ b) := by
  intro cmd k hmem
  rw [launchesOf_append, List.mem_append] at hmem
  rcases hmem with h | h
  · exact ha cmd k h
  · exact hb cmd k h

theorem launchesOk_cons {env : Env} {e : Ev} {t : List Ev}
    (h : launchesOf [e] = []) (ht : launchesOk env t) :
    launchesOk env (e :: t) := by
  intro cmd k hmem
  have hsplit : launchesOf (e :: t) = launchesOf [e] ++ launchesOf t := by
    rw [← launchesOf_append]
    rfl
  rw [hsplit, h, List.nil_append] at hmem
  exact ht cmd k hmem

theorem run_command_launchesOk (env : Env) (cmd : List String) (c : Ctr)
    (hhead : ∃ e, cmd.head? = some e ∧ env.avail e = true) :
    launchesOk env (run_command env cmd c).evs := by
  intro cmd' k hmem
  rw [launchesOf_run_command] at hmem
  split at hmem
  · rw [List.mem_singleton] at hmem
    obtain ⟨h1, h2⟩ := Prod.mk.injEq .. ▸ hmem
    subst h1
    subst h2
    exact ⟨by assumption, hhead⟩
  · cases hmem

theorem stdTool_launchesOk {env : Env} {ex : String}
    {missingEvs startEvs : List Ev} {cmd : List String}
    {finish : String → Ctr → Out}
    (hhead : cmd.head? = some ex)
    (hmiss : launchesOf missingEvs = [])
    (hstart : launchesOf startEvs = [])
    (hfin : ∀ out c, env.avail ex = true → launchesOk env (finish out c).evs)
    (c : Ctr) :
    launchesOk env (stdTool env ex missingEvs startEvs cmd finish c).evs := by
  simp only [stdTool]
  split
  · split
    · rename_i hav
      split
      · exact launchesOk_append (launchesOk_append (launchesOk_of_nil hstart)
          (run_command_launchesOk _ _ _ ⟨ex, hhead, hav⟩)) (hfin _ _ hav)
      · exact launchesOk_append (launchesOk_of_nil hstart)
          (run_command_launchesOk _ _ _ ⟨ex, hhead, hav⟩)
    · exact launchesOk_of_nil hmiss
  · exact launchesOk_of_nil rfl

theorem branch_launchesOk {env : Env} {runF : Ctr → Out} {skipEvs : List Ev}
    (hrun : ∀ c, launchesOk env (runF c).evs)
    (hskip : launchesOf skipEvs = []) (sel : Bool) (c : Ctr) :
    launchesOk env (branch env sel runF skipEvs c).evs := by
  simp only [branch]
  split
  · split
    · exact hrun _
    · exact launchesOk_of_nil hskip
  · exact launchesOk_of_nil hskip

theorem run_pylint_launchesOk (env : Env) (c : Ctr) :
    launchesOk env (run_pylint env c).evs := by
  unfold run_pylint
  refine stdTool_launchesOk (by rfl) (by rfl) (by rfl) ?_ c
  intro out c2 _
  apply launchesOk_of_nil
  dsimp only
  split <;> rfl

theorem run_mypy_launchesOk (env : Env) (st : Settings) (c : Ctr) :
    launchesOk env (run_mypy env st c).evs := by
  unfold run_mypy
  refine stdTool_launchesOk ?_ (by rfl) (by rfl) ?_ c
  · cases st.mypyIgnoreMissing <;> rfl
  · intro out c2 _
    exact launchesOk_of_nil rfl

theorem run_radon_launchesOk (env : Env) (st : Settings) (c : Ctr) :
    launchesOk env (run_radon env st c).evs := by
  unfold run_radon
  refine stdTool_launchesOk (by rfl) (by rfl) (by rfl) ?_ c
  intro out c2 _
  apply launchesOk_of_nil
  dsimp only
  split <;> rfl

theorem run_bandit_launchesOk (env : Env) (st : Settings) (c : Ctr) :
    launchesOk env (run_bandit env st c).evs := by
  unfold run_bandit
  refine stdTool_launchesOk (by rfl) (by rfl) (by rfl) ?_ c
  intro out c2 _
  apply launchesOk_of_nil
  dsimp only
  split <;> rfl

theorem run_black_launchesOk (env : Env) (st : Settings) (c : Ctr) :
    launchesOk env (run_black env st c).evs := by
  unfold run_black
  refine stdTool_launchesOk (by rfl) (by rfl) (by rfl) ?_ c
  intro out c2 hav
  dsimp only
  split
  · split
    · exact launchesOk_cons rfl (launchesOk_cons rfl
        (run_command_launchesOk _ _ _ ⟨"black", rfl, hav⟩))
    · exact launchesOk_of_nil rfl
  · exact launchesOk_of_nil rfl

theorem run_pydocstyle_launchesOk (env : Env) (c : Ctr) :
    launchesOk env (run_pydocstyle env c).evs := by
  unfold run_pydocstyle
  refine stdTool_launchesOk (by rfl) (by rfl) (by rfl) ?_ c
  intro out c2 _
  exact launchesOk_of_nil rfl

theorem run_pip_licenses_launchesOk (env : Env) (c : Ctr) :
    launchesOk env (run_pip_licenses env c).evs := by
  unfold run_pip_licenses
  refine stdTool_launchesOk (by rfl) (by rfl) (by rfl) ?_ c
  intro out c2 _
  apply launchesOk_of_nil
  dsimp only
  split <;> rfl

theorem run_pytest_launchesOk (env : Env) (c : Ctr) :
    launchesOk env (run_pytest env c).evs := by
  unfold run_pytest
  refine stdTool_launchesOk (by rfl) (by rfl) (by rfl) ?_ c
  intro out c2 _
  apply launchesOk_of_nil
  dsimp only
  split <;> rfl

theorem run_pip_audit_launchesOk (env : Env) (c : Ctr) :
    launchesOk env (run_pip_audit env c).evs := by
  unfold run_pip_audit
  refine stdTool_launchesOk (by rfl) (by rfl) (by rfl) ?_ c
  intro out c2 _
  apply launchesOk_of_nil
  dsimp only
  split <;> rfl

theorem run_flake8_launchesOk (env : Env) (c : Ctr) :
    launchesOk env (run_flake8_duplication env c).evs := by
  unfold run_flake8_duplication
  refine stdTool_launchesOk (by rfl) (by rfl) (by rfl) ?_ c
  intro out c2 _
  exact launchesOk_of_nil rfl

theorem generate_documentation_launchesOk (env : Env) (c : Ctr) :
    launchesOk env (generate_documentation env c).evs := by
  unfold generate_documentation
  refine stdTool_launchesOk (by rfl) (by rfl) (by rfl) ?_ c
  intro out c2 _
  apply launchesOk_of_nil
  dsimp only
  split <;> rfl

theorem run_autopep8_launchesOk (env : Env) (c : Ctr) :
    launchesOk env (run_autopep8 env c).evs := by
  simp only [run_autopep8]
  split
  · split
    · rename_i hav
      exact launchesOk_cons rfl (run_command_launchesOk _ _ _ ⟨"autopep8", rfl, hav⟩)
    · exact launchesOk_of_nil rfl
  · exact launchesOk_of_nil rfl

theorem run_isort_launchesOk (env : Env) (c : Ctr) :
    launchesOk env (run_isort env c).evs := by
  simp only [run_isort]
  split
  · split
    · rename_i hav
      exact launchesOk_cons rfl (run_command_launchesOk _ _ _ ⟨"isort", rfl, hav⟩)
    · exact launchesOk_of_nil rfl
  · exact launchesOk_of_nil rfl

theorem autofixBlock_launchesOk (env : Env) (st : Settings) (c : Ctr) :
    launchesOk env (autofixBlock env st c).evs := by
  simp only [autofixBlock]
  split
  · split
    · refine launchesOk_append ?_ ?_
      · split
        · exact run_autopep8_launchesOk env _
        · exact launchesOk_of_nil rfl
      · split
        · exact run_isort_launchesOk env _
        · exact launchesOk_of_nil rfl
    · exact launchesOk_of_nil rfl
  · exact launchesOk_of_nil rfl

theorem runTrace_launchesOk (env : Env) (st : Settings) :
    launchesOk env (runTrace env st) := by
  simp only [runTrace, threadRun]
  refine launchesOk_append (launchesOk_append (launchesOk_append
    (launchesOk_append (launchesOk_append (launchesOk_append (launchesOk_append
    (launchesOk_append (launchesOk_append (launchesOk_append (launchesOk_append
    (launchesOk_append
      (branch_launchesOk (run_pylint_launchesOk env) (by rfl) _ _)
      (branch_launchesOk (run_mypy_launchesOk env st) (by rfl) _ _))
      (branch_launchesOk (run_radon_launchesOk env st) (by rfl) _ _))
      (branch_launchesOk (run_bandit_launchesOk env st) (by rfl) _ _))
      (branch_launchesOk (run_black_launchesOk env st) (by rfl) _ _))
      (branch_launchesOk (run_pydocstyle_launchesOk env) (by rfl) _ _))
      (branch_launchesOk (run_pip_licenses_launchesOk env) (by rfl) _ _))
      (branch_launchesOk (run_pytest_launchesOk env) (by rfl) _ _))
      (branch_launchesOk (run_pip_audit_launchesOk env) (by rfl) _ _))
      (autofixBlock_launchesOk env st _))
      (branch_launchesOk (run_flake8_launchesOk env) (by rfl) _ _))
      (branch_launchesOk (generate_documentation_launchesOk env) (by rfl) _ _))
    (launchesOk_of_nil rfl)

theorem launch_mem_iff (evs : List Ev) (cmd : List String) (k : Nat) :
    (cmd, k) ∈ launchesOf evs ↔ Ev.launch cmd k ∈ evs := by
  induction evs with
  | nil => simp
  | cons e t ih => cases e <;> simp [ih, Prod.ext_iff]

theorem final_prog_mem (env : Env) (st : Settings) :
    Ev.prog "Analysis completed." ∈ runTrace env st := by
  simp only [runTrace, threadRun]
  simp [List.mem_append]

theorem markedList_eq_canonical (env : Env) (st : Settings)
    (hc : env.cancelAt = none)
    (hlic : licenseOkB env (runTrace env st) = true) :
    markedList env st = canonicalDone := by
  rw [markedList, marks_eq_done env _ hlic, doneOf_runTrace_eq env st hc]

theorem markedList_sub_canonical (env : Env) (st : Settings) :
    List.Sublist (markedList env st) canonicalDone :=
  (marks_sublist_done env _).trans (doneOf_runTrace_sub env st)

theorem markedList_nodup (env : Env) (st : Settings) :
    (markedList env st).Nodup :=
  (markedList_sub_canonical env st).nodup canonicalDone_nodup

theorem completedUpTo_le (env : Env) (st : Settings) (n : Nat) :
    completedUpTo env st n ≤ totalSteps st.selected := by
  rw [completedUpTo, totalSteps]
  have hnd : (((markedList env st).take n).filter
      (fun s => decide (s ∈ stepsList st.selected))).Nodup :=
    (((markedList_nodup env st).sublist (List.take_sublist n _)).filter _)
  refine nodup_length_le hnd (List.nodup_dedup _) ?_
  intro x hx
  rw [List.mem_filter] at hx
  exact of_decide_eq_true hx.2

theorem completedCount_eq (env : Env) (st : Settings)
    (hc : env.cancelAt = none)
    (hlic : licenseOkB env (runTrace env st) = true)
    (hnp : "Profiling" ∉ st.selected) :
    completedCount env st = totalSteps st.selected := by
  rw [completedCount, markedList_eq_canonical env st hc hlic, totalSteps]
  refine nodup_length_eq (canonicalDone_nodup.filter _) (List.nodup_dedup _) ?_
  intro x
  constructor
  · intro hx
    rw [List.mem_filter] at hx
    exact of_decide_eq_true hx.2
  · intro hx
    rw [List.mem_filter]
    exact ⟨stepsList_sub_canonical _ hnp x hx, decide_eq_true hx⟩

theorem stdTool_missing_evs {env : Env} {ex : String}
    {missingEvs startEvs : List Ev} {cmd : List String}
    {finish : String → Ctr → Out} {c : Ctr}
    (hc : env.cancelAt = none) (hav : env.avail ex = false) :
    (stdTool env ex missingEvs startEvs cmd finish c).evs = missingEvs := by
  simp [stdTool, aliveAt_of_none hc, hav]

theorem branch_evs_sel_true {env : Env} {runF : Ctr → Out} {skip : List Ev}
    {P : Prop} [Decidable P] (hP : P) (hc : env.cancelAt = none) (c : Ctr) :
    (branch env (decide P) runF skip c).evs = (runF ⟨c.tick + 1, c.launches⟩).evs := by
  simp [branch, decide_eq_true hP, aliveAt_of_none hc]

theorem run_pylint_missing_mem (env : Env) (hc : env.cancelAt = none)
    (hav : env.avail "pylint" = false) (c : Ctr) :
    Ev.done LogicalStep.linting "pylint is not available." ∈ (run_pylint env c).evs := by
  unfold run_pylint
  rw [stdTool_missing_evs hc hav]
  simp

theorem run_mypy_missing_mem (env : Env) (st : Settings) (hc : env.cancelAt = none)
    (hav : env.avail "mypy" = false) (c : Ctr) :
    Ev.done LogicalStep.typeChecking "mypy is not available." ∈
      (run_mypy env st c).evs := by
  unfold run_mypy
  rw [stdTool_missing_evs hc hav]
  simp

theorem run_radon_missing_mem (env : Env) (st : Settings) (hc : env.cancelAt = none)
    (hav : env.avail "radon" = false) (c : Ctr) :
    Ev.done LogicalStep.complexity "radon is not available." ∈
      (run_radon env st c).evs := by
  unfold run_radon
  rw [stdTool_missing_evs hc hav]
  simp

theorem run_bandit_missing_mem (env : Env) (st : Settings) (hc : env.cancelAt = none)
    (hav : env.avail "bandit" = false) (c : Ctr) :
    Ev.done LogicalStep.security "bandit is not available." ∈
      (run_bandit env st c).evs := by
  unfold run_bandit
  rw [stdTool_missing_evs hc hav]
  simp

theorem run_black_missing_mem (env : Env) (st : Settings) (hc : env.cancelAt = none)
    (hav : env.avail "black" = false) (c : Ctr) :
    Ev.done LogicalStep.formatting "black is not available." ∈
      (run_black env st c).evs := by
  unfold run_black
  rw [stdTool_missing_evs hc hav]
  simp

theorem run_pydocstyle_missing_mem (env : Env) (hc : env.cancelAt = none)
    (hav : env.avail "pydocstyle" = false) (c : Ctr) :
    Ev.done LogicalStep.documentation "pydocstyle is not available." ∈
      (run_pydocstyle env c).evs := by
  unfold run_pydocstyle
  rw [stdTool_missing_evs hc hav]
  simp

theorem run_pip_licenses_missing_mem (env : Env) (hc : env.cancelAt = none)
    (hav : env.avail "pip-licenses" = false) (c : Ctr) :
    Ev.done LogicalStep.license "pip-licenses is not available." ∈
      (run_pip_licenses env c).evs := by
  unfold run_pip_licenses
  rw [stdTool_missing_evs hc hav]
  simp

theorem run_pytest_missing_mem (env : Env) (hc : env.cancelAt = none)
    (hav : env.avail "pytest" = false) (c : Ctr) :
    Ev.done LogicalStep.testing "pytest is not available." ∈
      (run_pytest env c).evs := by
  unfold run_pytest
  rw [stdTool_missing_evs hc hav]
  simp

theorem run_pip_audit_missing_mem (env : Env) (hc : env.cancelAt = none)
    (hav : env.avail "pip-audit" = false) (c : Ctr) :
    Ev.done LogicalStep.dependencyAudit "pip-audit is not available." ∈
      (run_pip_audit env c).evs := by
  unfold run_pip_audit
  rw [stdTool_missing_evs hc hav]
  simp

theorem run_flake8_missing_mem (env : Env) (hc : env.cancelAt = none)
    (hav : env.avail "flake8" = false) (c : Ctr) :
    Ev.done LogicalStep.codeDuplication "Flake8 is not available." ∈
      (run_flake8_duplication env c).evs := by
  unfold run_flake8_duplication
  rw [stdTool_missing_evs hc hav]
  simp

theorem generate_documentation_missing_mem (env : Env) (hc : env.cancelAt = none)
    (hav : env.avail "pdoc" = false) (c : Ctr) :
    Ev.done LogicalStep.docGeneration "pdoc is not available." ∈
      (generate_documentation env c).evs := by
  unfold generate_documentation
  rw [stdTool_missing_evs hc hav]
  simp

/-! ## Claim theorems -/

/-- C3 counterexample: on a zero exit the Step Runner (`run_command`) returns
only the captured stdout; a non-empty stderr ("warning") is not retained in
the returned record, so the claim that stdout and stderr are always returned
combined is false. -/
theorem c3_success_drops_stderr :
    runCommandResult (ProcOutcome.success "ok" "warning") = "ok" ∧
    ¬ ("warning".data <:+: (runCommandResult (ProcOutcome.success "ok" "warning")).data) := by
  decide

/-- C3 amended: on a non-zero exit (`subprocess.CalledProcessError`) the
returned text is the stripped stdout and stderr joined by a newline, so both
streams are retained (stdout as a prefix, stderr as a suffix); on exit 0 only
stdout is returned. -/
theorem c3_nonzero_retains_both (out err : String) :
    runCommandResult (ProcOutcome.calledError (some out) (some err)) =
      out.trim ++ "\n" ++ err.trim ∧
    out.trim.data <+:
      (runCommandResult (ProcOutcome.calledError (some out) (some err))).data ∧
    err.trim.data <:+
      (runCommandResult (ProcOutcome.calledError (some out) (some err))).data ∧
    runCommandResult (ProcOutcome.success out err) = out := by
  refine ⟨rfl, ?_, ?_, rfl⟩
  · refine ⟨"\n".data ++ err.trim.data, ?_⟩
    show out.trim.data ++ ("\n".data ++ err.trim.data) =
      ((out.trim ++ "\n") ++ err.trim).data
    show out.trim.data ++ ("\n".data ++ err.trim.data) =
      (out.trim.data ++ "\n".data) ++ err.trim.data
    rw [List.append_assoc]
  · exact ⟨(out.trim ++ "\n").data, rfl⟩

/-- C10: the command-execution utility is total — it returns the value
described by `runCommandResult` whenever the `is_running` flag is up at the
guard read, and the empty string otherwise; `runCommandResult` yields stdout
on exit 0, stripped stdout and stderr joined by a newline on a non-zero exit,
and the empty string on timeout, missing executable, or any other launch
fault.  Every Python exception handler is a total branch of this function, so
no exception escapes to the caller. -/
theorem c10_run_command_total (env : Env) (cmd : List String) (c : Ctr)
    (out err m : String) (o e : Option String) :
    (run_command env cmd c).out =
      (if env.aliveAt c.tick then runCommandResult (env.outcomes c.launches) else "") ∧
    runCommandResult (ProcOutcome.success out err) = out ∧
    runCommandResult ProcOutcome.timeoutExpired = "" ∧
    runCommandResult ProcOutcome.fileNotFound = "" ∧
    runCommandResult (ProcOutcome.calledError o e) =
      (o.getD "").trim ++ "\n" ++ (e.getD "").trim ∧
    runCommandResult (ProcOutcome.otherError m) = "" := by
  refine ⟨?_, rfl, rfl, rfl, rfl, rfl⟩
  simp only [run_command]
  split
  · split <;> simp_all [runCommandResult]
  · rfl

/-- C8: when the selected tools map to zero logical steps, the start gate of
`AnalyzerApp.run_analysis` rejects the request before any `AnalysisThread` is
constructed: the outcome is `rejected`, never `started`. -/
theorem c8_zero_steps_rejected (pp : String) (selected : List String)
    (hpp : pp ≠ "") (h : totalSteps selected = 0) :
    run_analysis_gate pp selected = StartOutcome.rejected ∧
    ∀ t, run_analysis_gate pp selected ≠ StartOutcome.started t := by
  constructor
  · rw [run_analysis_gate, if_neg hpp, if_pos h]
  · intro t hcontra
    rw [run_analysis_gate, if_neg hpp, if_pos h] at hcontra
    cases hcontra

/-- C8 witness: the empty selection maps to zero steps and is rejected. -/
theorem c8_zero_steps_rejected_witness :
    run_analysis_gate "/proj" [] = StartOutcome.rejected :=
  (c8_zero_steps_rejected "/proj" [] (by decide) (by decide)).1

/-- C5 counterexample: `generate_pylint_recommendations` iterates a Python
`set` of issue-type strings, whose iteration order is unspecified (it varies
with string-hash randomization across interpreter processes).  Two admissible
iteration orders of the same two-type report — insertion order and its
reverse — yield different recommendation-line sequences, so byte-identical
output on identical input and settings is not guaranteed. -/
theorem c5_set_order_counterexample :
    iterValid pylintTwoTypes id ∧ iterValid pylintTwoTypes List.reverse ∧
    (generate_pylint_recommendations pylintTwoTypes id).1 ≠
      (generate_pylint_recommendations pylintTwoTypes List.reverse).1 := by
  refine ⟨?_, ?_, ?_⟩
  · unfold iterValid
    decide
  · unfold iterValid
    decide
  · decide

/-- C5 amended: the recommendation generation is deterministic up to the set
iteration order — for any two admissible iteration orders the produced
recommendation lines are permutations of each other and the parse-warning
flag is identical. -/
theorem c5_deterministic_up_to_order (decoded : Option (List PylintIssue))
    (it1 it2 : List String → List String)
    (h1 : iterValid decoded it1) (h2 : iterValid decoded it2) :
    ((generate_pylint_recommendations decoded it1).1).Perm
      ((generate_pylint_recommendations decoded it2).1) ∧
    (generate_pylint_recommendations decoded it1).2 =
      (generate_pylint_recommendations decoded it2).2 := by
  cases decoded with
  | none => exact ⟨List.Perm.refl _, rfl⟩
  | some issues =>
    rw [iterValid, typesOf] at h1 h2
    by_cases he : issues.isEmpty = true
    · simp [generate_pylint_recommendations, he]
    · constructor
      · simp only [generate_pylint_recommendations, if_neg he]
        exact (h1.trans h2.symm).map _
      · simp [generate_pylint_recommendations, he]

/-- C5 witness: the amended determinism applied to the two-type report with
the identity and reverse iteration orders. -/
theorem c5_deterministic_up_to_order_witness :
    ((generate_pylint_recommendations pylintTwoTypes id).1).Perm
      ((generate_pylint_recommendations pylintTwoTypes List.reverse).1) :=
  (c5_deterministic_up_to_order pylintTwoTypes id List.reverse
    (by unfold iterValid; decide) (by unfold iterValid; decide)).1

/-- C7 counterexample: pip-audit is a structured-output (JSON) tool, yet on
a decode failure its adapter `process_dependency_output` displays the fixed
string "Failed to parse dependency vulnerabilities." — not the entire raw
text as a single opaque Finding — so the claim quantified over every
structured-output tool is false at this tool and input. -/
theorem c7_audit_fixed_string_counterexample :
    format_dependency_output "garbage" none =
      "Failed to parse dependency vulnerabilities." ∧
    format_dependency_output "garbage" none ≠ "garbage" :=
  ⟨rfl, by decide⟩

/-- C7 amended: for every structured-output (JSON) tool the decode failure is
caught locally and the run continues to its final "Analysis completed."
emission; the pylint, radon, bandit and pip-licenses adapters degrade to the
entire raw text as one opaque block and the five analysis-side JSON
recommendation generators log a parse warning (the `true` flag), while the
pip-audit and coverage adapters degrade to fixed parse-failure strings
instead of the raw text. -/
theorem c7_parse_failure_amended (raw : String) (env : Env) (st : Settings) :
    format_pylint_output raw none = raw ∧
    format_complexity_output raw none st.radonThreshold = raw ∧
    format_security_output raw none = raw ∧
    format_license_output raw none = raw ∧
    format_dependency_output raw none =
      "Failed to parse dependency vulnerabilities." ∧
    format_coverage_output raw none = "Failed to parse coverage report." ∧
    (generate_pylint_recommendations none env.setIter).2 = true ∧
    (generate_radon_recommendations none st.radonThreshold).2 = true ∧
    (generate_bandit_recommendations none).2 = true ∧
    (generate_pip_licenses_recommendations none).2 = true ∧
    (generate_pip_audit_recommendations none).2 = true ∧
    Ev.prog "Analysis completed." ∈ runTrace env st :=
  ⟨rfl, rfl, rfl, rfl, rfl, rfl, rfl, rfl, rfl, rfl, rfl, final_prog_mem env st⟩

/-- C9: once the cancellation flag is down, no further external process is
launched — every `launch` event of every run trace carries the index of the
`is_running` read that guarded it, and that read returned true. -/
theorem c9_no_launch_after_cancel (env : Env) (st : Settings)
    (cmd : List String) (k : Nat)
    (h : Ev.launch cmd k ∈ runTrace env st) :
    env.aliveAt k = true := by
  have hm := (launch_mem_iff (runTrace env st) cmd k).mpr h
  exact (runTrace_launchesOk env st cmd k hm).1

/-- C9 witness: with cancellation scheduled at read index 5, the pylint
launch guarded by read 2 occurs and read 2 is indeed before the cutoff. -/
theorem c9_no_launch_after_cancel_witness :
    Ev.launch ["pylint", "/proj", "--output-format=json"] 2 ∈
      runTrace (mkEnv (fun _ => true) (some 5)) (mkSettings ["Pylint"] false) ∧
    (mkEnv (fun _ => true) (some 5)).aliveAt 2 = true :=
  ⟨by decide,
   c9_no_launch_after_cancel (mkEnv (fun _ => true) (some 5))
     (mkSettings ["Pylint"] false) ["pylint", "/proj", "--output-format=json"] 2
     (by decide)⟩

/-- C4: throughout every run — for every environment, settings, and prefix of
the `step_completed` invocation sequence — the completed-step counter never
exceeds the computed total, and the sequence of marked logical steps contains
no duplicates, so each logical step is marked complete at most once even when
several selected tools map to the same step name. -/
theorem c4_completed_bounded_and_unique (env : Env) (st : Settings) :
    (markedList env st).Nodup ∧
    ∀ n, completedUpTo env st n ≤ totalSteps st.selected :=
  ⟨markedList_nodup env st, fun n => completedUpTo_le env st n⟩

/-- C2 evaluation at the failing input: cancellation requested before any
flag read (`cancelAt = 0`) with the default settings (metrics tracking on and
every tool selected).  No subprocess is ever launched, yet the `finished`
signal of the thread still drives `analysis_finished`, which reports
"Analysis completed." with 100% progress and appends a metrics snapshot —
contradicting the claimed Canceled terminal state with no history write. -/
theorem c2_cancel_still_writes_metrics :
    launchesOf (runTrace (mkEnv (fun _ => true) (some 0))
      (mkSettings allTools false)) = [] ∧
    (analysis_finished (mkSettings allTools false)).snapshotAppended = true ∧
    (analysis_finished (mkSettings allTools false)).finalStatus =
      "Analysis completed." ∧
    (analysis_finished (mkSettings allTools false)).finalPct = 100 := by
  decide

/-- C1 counterexample: selecting only the "Profiling" tool yields one logical
step, but `AnalysisThread.run` never emits the `profiling_completed` signal,
so after the run has processed every selected tool (it reaches its final
"Analysis completed." emission) the completed-step count is 0, not 1. -/
theorem c1_profiling_counterexample :
    totalSteps ["Profiling"] = 1 ∧
    completedCount (mkEnv (fun _ => false) none) (mkSettings ["Profiling"] false) = 0 ∧
    Ev.prog "Analysis completed." ∈
      runTrace (mkEnv (fun _ => false) none) (mkSettings ["Profiling"] false) := by
  refine ⟨by decide, by decide, by decide⟩

/-- C1 amended: the total equals the number of distinct logical-step names of
the selected tools, and in an uncancelled run whose selection does not
include "Profiling" (whose step signal is never emitted) and whose
license-step payload does not decode to an empty JSON list (which would skip
`step_completed` via the early return in `process_license_output`), the
completed count equals the total and the reported progress percentage is
100. -/
theorem c1_total_and_completion_amended (env : Env) (st : Settings)
    (hc : env.cancelAt = none)
    (hnp : "Profiling" ∉ st.selected)
    (hlic : licenseOkB env (runTrace env st) = true)
    (hne : totalSteps st.selected ≠ 0) :
    totalSteps st.selected = (st.selected.flatMap tools_to_steps).toFinset.card ∧
    completedCount env st = totalSteps st.selected ∧
    (completedCount env st : ℚ) / (totalSteps st.selected : ℚ) * 100 = 100 := by
  have h1 : totalSteps st.selected =
      (st.selected.flatMap tools_to_steps).toFinset.card := by
    rw [totalSteps, stepsList, List.card_toFinset]
  have h2 := completedCount_eq env st hc hlic hnp
  refine ⟨h1, h2, ?_⟩
  rw [h2]
  have hq : (totalSteps st.selected : ℚ) ≠ 0 := by
    exact_mod_cast hne
  rw [div_self hq, one_mul]

/-- C1 witness: the amended statement applied to a run that selects only
Pylint in an environment whose decoders reject everything. -/
theorem c1_total_and_completion_witness :
    completedCount (mkEnv (fun _ => false) none) (mkSettings ["Pylint"] false) =
      totalSteps ["Pylint"] :=
  (c1_total_and_completion_amended (mkEnv (fun _ => false) none)
    (mkSettings ["Pylint"] false) rfl (by decide) (by decide) (by decide)).2.1

/-- C6 counterexample: Autopep8 is a selectable tool with an availability
check, yet when its executable is missing (auto-fix enabled) the run records
no synthetic "not available" completion payload at all — only a progress
error message is emitted — so the claim that every selected tool with an
absent executable gets a recorded tool-missing result is false. -/
theorem c6_autofix_missing_counterexample :
    Ev.prog "Error: autopep8 is not available. Please install it." ∈
      runTrace (mkEnv (fun _ => false) none) (mkSettings ["Autopep8"] true) ∧
    (donePayloads (runTrace (mkEnv (fun _ => false) none)
        (mkSettings ["Autopep8"] true))).all
      (fun p => !(substrB "autopep8" p)) = true := by
  refine ⟨by decide, by decide⟩

/-- C6 amended: for the eleven availability-guarded tools that emit a
completion signal (all guarded tools except the auto-fix pair Autopep8 and
Isort), a selected tool with an absent executable in an uncancelled run gets
its synthetic "... is not available." payload emitted, no subprocess whose
command starts with that executable is ever launched, the run still reaches
its final "Analysis completed." emission, and the logical step of the tool is
still marked complete. -/
theorem c6_tool_missing_amended (env : Env) (st : Settings)
    (tool ex : String) (step : LogicalStep) (msg : String)
    (hg : guardedMissing tool = some (ex, step, msg))
    (hsel : tool ∈ st.selected)
    (hav : env.avail ex = false)
    (hc : env.cancelAt = none)
    (hlic : licenseOkB env (runTrace env st) = true) :
    Ev.done step msg ∈ runTrace env st ∧
    (∀ cmd k, Ev.launch cmd k ∈ runTrace env st → cmd.head? ≠ some ex) ∧
    Ev.prog "Analysis completed." ∈ runTrace env st ∧
    ∀ s ∈ tools_to_steps tool, s ∈ markedList env st := by
  have hfind : ∃ pr, guardedTable.find? (fun q => q.1 = tool) = some pr ∧
      pr.2 = (ex, step, msg) := by
    rw [guardedMissing] at hg
    cases hf : guardedTable.find? (fun q => q.1 = tool) with
    | none => rw [hf] at hg; cases hg
    | some pr =>
      rw [hf] at hg
      exact ⟨pr, rfl, Option.some.inj hg⟩
  obtain ⟨pr, hf, hpr2⟩ := hfind
  have hkey : pr.1 = tool := by
    have := List.find?_some hf
    simpa using this
  have htab := List.mem_of_find?_eq_some hf
  have hne : tool ≠ "Profiling" := by
    intro he
    subst he
    have hnone : guardedMissing "Profiling" = none := by decide
    rw [hnone] at hg
    cases hg
  have hb : ∀ cmd k, Ev.launch cmd k ∈ runTrace env st → cmd.head? ≠ some ex := by
    intro cmd k hl hcontra
    have hm := (launch_mem_iff (runTrace env st) cmd k).mpr hl
    obtain ⟨-, e, hhead, havail⟩ := runTrace_launchesOk env st cmd k hm
    rw [hcontra] at hhead
    rw [(Option.some.inj hhead).symm] at havail
    rw [havail] at hav
    cases hav
  have hd : ∀ s ∈ tools_to_steps tool, s ∈ markedList env st := by
    rw [markedList_eq_canonical env st hc hlic]
    intro s hs
    have hsub := tools_to_steps_sub tool s hs
    rw [List.mem_cons] at hsub
    rcases hsub with hp | hcan
    · exact absurd (hp ▸ hs) (tools_to_steps_no_profiling tool hne)
    · exact hcan
  refine ⟨?_, hb, final_prog_mem env st, hd⟩
  simp only [guardedTable, List.mem_cons, List.not_mem_nil, or_false] at htab
  rcases htab with h | h | h | h | h | h | h | h | h | h | h <;> subst h <;>
    (simp only [Prod.mk.injEq] at hpr2; obtain ⟨rfl, rfl, rfl⟩ := hpr2) <;>
    (simp only [] at hkey; subst hkey) <;>
    simp only [runTrace, threadRun, List.mem_append]
  · exact Or.inl (Or.inl (Or.inl (Or.inl (Or.inl (Or.inl (Or.inl (Or.inl (Or.inl
      (Or.inl (Or.inl (Or.inl (by
        rw [branch_evs_sel_true hsel hc]
        exact run_pylint_missing_mem env hc hav _))))))))))))
  · exact Or.inl (Or.inl (Or.inl (Or.inl (Or.inl (Or.inl (Or.inl (Or.inl (Or.inl
      (Or.inl (Or.inl (Or.inr (by
        rw [branch_evs_sel_true hsel hc]
        exact run_mypy_missing_mem env st hc hav _))))))))))))
  · exact Or.inl (Or.inl (Or.inl (Or.inl (Or.inl (Or.inl (Or.inl (Or.inl (Or.inl
      (Or.inl (Or.inr (by
        rw [branch_evs_sel_true hsel hc]
        exact run_radon_missing_mem env st hc hav _)))))))))))
  · exact Or.inl (Or.inl (Or.inl (Or.inl (Or.inl (Or.inl (Or.inl (Or.inl (Or.inl
      (Or.inr (by
        rw [branch_evs_sel_true hsel hc]
        exact run_bandit_missing_mem env st hc hav _))))))))))
  · exact Or.inl (Or.inl (Or.inl (Or.inl (Or.inl (Or.inl (Or.inl (Or.inl (Or.inr
      (by
        rw [branch_evs_sel_true hsel hc]
        exact run_black_missing_mem env st hc hav _)))))))))
  · exact Or.inl (Or.inl (Or.inl (Or.inl (Or.inl (Or.inl (Or.inl (Or.inr (by
      rw [branch_evs_sel_true hsel hc]
      exact run_pydocstyle_missing_mem env hc hav _))))))))
  · exact Or.inl (Or.inl (Or.inl (Or.inl (Or.inl (Or.inl (Or.inr (by
      rw [branch_evs_sel_true hsel hc]
      exact run_pip_licenses_missing_mem env hc hav _)))))))
  · exact Or.inl (Or.inl (Or.inl (Or.inl (Or.inl (Or.inr (by
      rw [branch_evs_sel_true hsel hc]
      exact run_pytest_missing_mem env hc hav _))))))
  · exact Or.inl (Or.inl (Or.inl (Or.inl (Or.inr (by
      rw [branch_evs_sel_true hsel hc]
      exact run_pip_audit_missing_mem env hc hav _)))))
  · exact Or.inl (Or.inl (Or.inr (by
      rw [branch_evs_sel_true hsel hc]
      exact run_flake8_missing_mem env hc hav _)))
  · exact Or.inl (Or.inr (by
      rw [branch_evs_sel_true hsel hc]
      exact generate_documentation_missing_mem env hc hav _))

/-- C6 witness: the amended statement applied to a missing pylint with only
Pylint selected. -/
theorem c6_tool_missing_amended_witness :
    Ev.done LogicalStep.linting "pylint is not available." ∈
      runTrace (mkEnv (fun _ => false) none) (mkSettings ["Pylint"] false) :=
  (c6_tool_missing_amended (mkEnv (fun _ => false) none)
    (mkSettings ["Pylint"] false) "Pylint" "pylint" LogicalStep.linting
    "pylint is not available." (by decide) (by decide) rfl rfl (by decide)).1
